import Mathlib

/-!
# Monitoring views of `external/polar_monitor/polar_monitor_io.c`

A shallow embedding of the three set-returning functions of
`polar_monitor_io.c` (`polar_stat_process`, `polar_stat_io_info`,
`polar_io_latency_info`) and of the helper `set_polar_proc_iostat`.

Conventions of the embedding.

* C `int` values are `Int`, `uint64` values are `Nat`; the `uint64` additions of
  `set_polar_proc_iostat` are taken modulo `2 ^ 64`.
* An `instr_time` is an integer number of nanoseconds.
* A `double` is the exact rational it was computed from: rounding of floating
  point conversions is outside the embedding.
* `values[]` / `nulls[]` are lists updated with `List.set`; the tuplestore is the
  list of rows stored so far, a row being the list of its columns (`none` is SQL
  null).
* The three functions are modelled from the point where the result tuplestore
  exists: the checks on `rsinfo` and the construction of the tuple descriptor
  belong to the executor's set-returning-function protocol.
* `PolarIOStatArray` is a pointer: `none` is the null pointer, and indexing it is
  pointer arithmetic, so an index reads whatever the memory holds there. The
  section on memory that may be unreadable runs the two detail views again with
  reads that can fault.
-/

namespace PolarMonitorIO

/-! ## Constants and types of the headers -/

/-- Modelled from the spec: `POLARIO_LOC_SIZE` of `storage/polar_io_stat.h`, the
number of storage locations; the static assertion of the source makes it the
length of `polar_io_loc_names`. -/
def POLARIO_LOC_SIZE : Nat := 2

/-- Modelled from the spec: `LATENCY_INTERVAL_LEN` of `storage/polar_io_stat.h`,
the number of latency buckets; the static assertion of the source makes it the
length of `polar_latency_infos`. -/
def LATENCY_INTERVAL_LEN : Nat := 8

/-- Modelled from the spec: `POLARIO_TYPE_SIZE` of `storage/polar_io_stat.h`, the
number of directory categories; the static assertion of the source makes it the
length of `polar_dir_type_names`. -/
def POLARIO_TYPE_SIZE : Nat := 11

/-- Modelled from the spec: `LATENCY_KIND_LEN` of `storage/polar_io_stat.h`, the
number of operation kinds; the static assertion of the source makes it the
length of `polar_io_kind_names`. -/
def LATENCY_KIND_LEN : Nat := 7

/-- Modelled from the spec: `POLARIO_LOCAL` of `storage/polar_io_stat.h`, the
index of the local location (the position of "local" in `polar_io_loc_names`). -/
def POLARIO_LOCAL : Nat := 0

/-- Modelled from the spec: `POLARIO_SHARED` of `storage/polar_io_stat.h`, the
index of the shared location (the position of "pfs" in `polar_io_loc_names`). -/
def POLARIO_SHARED : Nat := 1

/-- Modelled from the spec: `PGPROC_WAIT_PID` of `storage/proc.h`, the wait kind
of a wait on a process. -/
def PGPROC_WAIT_PID : Int := 0

/-- Modelled from the spec: `PGPROC_WAIT_FD` of `storage/proc.h`, the wait kind of
a wait on a file descriptor. -/
def PGPROC_WAIT_FD : Int := 1

/-- The static table `polar_io_loc_names`. -/
def polar_io_loc_names : List String := ["local", "pfs"]

/-- The static table `polar_latency_infos`. -/
def polar_latency_infos : List String :=
  ["LessThan200us", "LessThan400us", "LessThan600us", "LessThan800us",
   "LessThan1ms", "LessThan10ms", "LessThan100ms", "MoreThan100ms"]

/-- The static table `polar_dir_type_names`. -/
def polar_dir_type_names : List String :=
  ["WAL", "DATA", "CLOG", "global", "logindex", "multixact",
   "twophase", "replslot", "snapshots", "subtrans", "others"]

/-- The static table `polar_io_kind_names`. -/
def polar_io_kind_names : List String :=
  ["read", "write", "open", "seek", "creat", "fsync", "falloc"]

/-- Modelled from the spec: `instr_time` of `portability/instr_time.h`, a point
in time or a duration, as a whole number of nanoseconds. -/
abbrev instr_time : Type := Int

/-- Modelled from the spec: `INSTR_TIME_IS_ZERO`. -/
def INSTR_TIME_IS_ZERO (t : instr_time) : Bool := t == 0

/-- Modelled from the spec: `INSTR_TIME_ADD(x, y)`, the new value of `x`. -/
def INSTR_TIME_ADD (x y : instr_time) : instr_time := x + y

/-- Modelled from the spec: `INSTR_TIME_SUBTRACT(x, y)`, the new value of `x`. -/
def INSTR_TIME_SUBTRACT (x y : instr_time) : instr_time := x - y

/-- Modelled from the spec: `INSTR_TIME_GET_MILLISEC`, the duration in
milliseconds as a `double`. -/
def INSTR_TIME_GET_MILLISEC (t : instr_time) : ℚ := (t : ℚ) / 1000000

/-- Modelled from the spec: `INSTR_TIME_GET_MICROSEC`, the duration in whole
microseconds. -/
def INSTR_TIME_GET_MICROSEC (t : instr_time) : Int := t / 1000

/-- A `Datum` together with the conversion that built it. `zero` is the all-zero
word left by `MemSet`. -/
inductive Datum where
  | zero
  | int32 (v : Int)
  | int64 (v : Int)
  | float8 (v : ℚ)
  | text (s : String)
  deriving DecidableEq, Repr

/-- The macro `Int32GetDatum`. -/
def Int32GetDatum (x : Int) : Datum := Datum.int32 x

/-- The macro `Int64GetDatum`. -/
def Int64GetDatum (x : Int) : Datum := Datum.int64 x

/-- The macro `UInt64GetDatum`. -/
def UInt64GetDatum (x : Nat) : Datum := Datum.int64 x

/-- The macro `Float8GetDatum`. -/
def Float8GetDatum (x : ℚ) : Datum := Datum.float8 x

/-- The macro `CStringGetTextDatum`. -/
def CStringGetTextDatum (s : String) : Datum := Datum.text s

/-- A stored tuple: column `j` is `none` when `nulls[j]` was set. -/
abbrev Row : Type := List (Option Datum)

/-- The result tuplestore: the rows in the order they were stored. -/
abbrev Tuplestorestate : Type := List Row

/-- The call `tuplestore_putvalues(tupstore, tupdesc, values, nulls)`: forms the
tuple of `values` and `nulls` and appends it to the store. -/
def tuplestore_putvalues (tupstore : Tuplestorestate) (values : List Datum)
    (nulls : List Bool) : Tuplestorestate :=
  tupstore ++ [List.zipWith (fun v n => if n then none else some v) values nulls]

/-- Modelled from the spec: the type `PolarProcIOStat` of
`storage/polar_io_stat.h`, the counters of one (directory category, location)
cell, with the field names the source reads. Counts and byte totals are
`uint64`, times are `instr_time`. -/
structure PolarProcIOStat where
  io_open_num : Nat
  io_open_time : instr_time
  io_close_num : Nat
  io_number_read : Nat
  io_number_write : Nat
  io_throughtput_read : Nat
  io_throughtput_write : Nat
  io_latency_read : instr_time
  io_latency_write : instr_time
  io_seek_count : Nat
  io_seek_time : instr_time
  io_creat_count : Nat
  io_creat_time : instr_time
  io_fsync_count : Nat
  io_fsync_time : instr_time
  io_falloc_count : Nat
  io_falloc_time : instr_time
  deriving DecidableEq, Repr

/-- Modelled from the spec: the element type of `PolarIOStatArray` of
`storage/polar_io_stat.h`, one slot of the stat table:
`polar_proc_io_stat_dist[type][loc]` and `num_latency_dist[loc][kind][bucket]`. -/
structure PolarCollectIoStat where
  pid : Int
  polar_proc_io_stat_dist : Nat → Nat → PolarProcIOStat
  num_latency_dist : Nat → Nat → Nat → Nat

/-- Modelled from the spec: the values of `BackendType` of `miscadmin.h`; the
source only tells `B_BACKEND` from the rest. -/
inductive BackendType where
  | B_INVALID
  | B_AUTOVAC_LAUNCHER
  | B_AUTOVAC_WORKER
  | B_BACKEND
  | B_BG_WORKER
  | B_BG_WRITER
  | B_CHECKPOINTER
  | B_STARTUP
  | B_WAL_RECEIVER
  | B_WAL_SENDER
  | B_WAL_WRITER
  | B_ARCHIVER
  | B_LOGGER
  deriving DecidableEq, Repr

/-- Modelled from the spec: the fields of `PgBackendStatus` the source reads. -/
structure PgBackendStatus where
  st_procpid : Int
  st_query_id : Nat
  st_backendType : BackendType
  backendid : Int
  deriving DecidableEq, Repr

/-- Modelled from the spec: the field of `LocalPgBackendStatus` the source
reads. -/
structure LocalPgBackendStatus where
  backendStatus : PgBackendStatus
  deriving DecidableEq, Repr

/-- Modelled from the spec: the wait stack fields of `PGPROC` (`storage/proc.h`):
the index of the top entry and, per stack position, the object waited on, the
wait kind and the time the wait began. -/
structure PGPROC where
  cur_wait_stack_index : Int
  wait_object : Nat → Int
  wait_type : Nat → Int
  wait_time : Nat → instr_time

/-- Modelled from the spec: the fields of `polar_proc_stat` (`procstat.h`) the
source reads. -/
structure polar_proc_stat where
  utime : Int
  stime : Int
  rss : Int
  share : Int
  deriving DecidableEq, Repr

/-- What the functions read from outside: the backend registry
(`pgstat_fetch_stat_numbackends`, `pgstat_fetch_stat_local_beentry`), the process
array (`BackendPidGetProc`, `AuxiliaryPidGetProc`), the sampler
`polar_get_proc_stat` (`none` is a non-zero return code, `some s` is return code
0 with `s` written to `procstat`), the clock (`INSTR_TIME_SET_CURRENT` while the
row of the given registry slot is built), and the globals `PolarIOStatArray` and
`PolarNumProcIOStatSlots`. -/
structure World where
  pgstat_fetch_stat_numbackends : Nat
  pgstat_fetch_stat_local_beentry : Nat → Option LocalPgBackendStatus
  BackendPidGetProc : Int → Option PGPROC
  AuxiliaryPidGetProc : Int → Option PGPROC
  polar_get_proc_stat : Int → Option polar_proc_stat
  INSTR_TIME_SET_CURRENT : Nat → instr_time
  PolarIOStatArray : Option (Int → PolarCollectIoStat)
  PolarNumProcIOStatSlots : Nat

/-! ## `set_polar_proc_iostat` -/

/-- The twelve accumulators of `set_polar_proc_iostat`. -/
structure IoTotals where
  shared_read_ps : Nat
  shared_write_ps : Nat
  shared_read_throughput : Nat
  shared_write_throughput : Nat
  shared_read_latency : instr_time
  shared_write_latency : instr_time
  local_read_ps : Nat
  local_write_ps : Nat
  local_read_throughput : Nat
  local_write_throughput : Nat
  local_read_latency : instr_time
  local_write_latency : instr_time
  deriving DecidableEq, Repr

/-- The accumulators as the declarations and `INSTR_TIME_SET_ZERO` leave them. -/
def IoTotals.init : IoTotals :=
  { shared_read_ps := 0, shared_write_ps := 0, shared_read_throughput := 0,
    shared_write_throughput := 0, shared_read_latency := 0, shared_write_latency := 0,
    local_read_ps := 0, local_write_ps := 0, local_read_throughput := 0,
    local_write_throughput := 0, local_read_latency := 0, local_write_latency := 0 }

/-- One iteration of the loop over `index` in `set_polar_proc_iostat`; `dist` is
`PolarIOStatArray[backendid].polar_proc_io_stat_dist`. -/
def set_polar_proc_iostat_step (dist : Nat → Nat → PolarProcIOStat) (acc : IoTotals)
    (index : Nat) : IoTotals :=
  { local_read_ps := (acc.local_read_ps + (dist index POLARIO_LOCAL).io_number_read) % 2 ^ 64
    local_write_ps := (acc.local_write_ps + (dist index POLARIO_LOCAL).io_number_write) % 2 ^ 64
    local_read_throughput :=
      (acc.local_read_throughput + (dist index POLARIO_LOCAL).io_throughtput_read) % 2 ^ 64
    local_write_throughput :=
      (acc.local_write_throughput + (dist index POLARIO_LOCAL).io_throughtput_write) % 2 ^ 64
    local_read_latency :=
      INSTR_TIME_ADD acc.local_read_latency (dist index POLARIO_LOCAL).io_latency_read
    local_write_latency :=
      INSTR_TIME_ADD acc.local_write_latency (dist index POLARIO_LOCAL).io_latency_write
    shared_read_ps := (acc.shared_read_ps + (dist index POLARIO_SHARED).io_number_read) % 2 ^ 64
    shared_write_ps :=
      (acc.shared_write_ps + (dist index POLARIO_SHARED).io_number_write) % 2 ^ 64
    shared_read_throughput :=
      (acc.shared_read_throughput + (dist index POLARIO_SHARED).io_throughtput_read) % 2 ^ 64
    shared_write_throughput :=
      (acc.shared_write_throughput + (dist index POLARIO_SHARED).io_throughtput_write) % 2 ^ 64
    shared_read_latency :=
      INSTR_TIME_ADD acc.shared_read_latency (dist index POLARIO_SHARED).io_latency_read
    shared_write_latency :=
      INSTR_TIME_ADD acc.shared_write_latency (dist index POLARIO_SHARED).io_latency_write }

/-- The function `set_polar_proc_iostat(backendid, values, nulls)`, with the
global `PolarIOStatArray` it reads as first argument; returns the arrays as the
call leaves them. -/
def set_polar_proc_iostat (PolarIOStatArray : Option (Int → PolarCollectIoStat))
    (backendid : Int) (values : List Datum) (nulls : List Bool) :
    List Datum × List Bool :=
  match PolarIOStatArray with
  | some arr =>
    let t := (List.range POLARIO_TYPE_SIZE).foldl
      (set_polar_proc_iostat_step (arr backendid).polar_proc_io_stat_dist) IoTotals.init
    let values := values.set 6 (Int64GetDatum t.shared_read_ps)
    let values := values.set 7 (Int64GetDatum t.shared_write_ps)
    let values := values.set 8 (Int64GetDatum t.shared_read_throughput)
    let values := values.set 9 (Int64GetDatum t.shared_write_throughput)
    let values := values.set 10 (Float8GetDatum (INSTR_TIME_GET_MILLISEC t.shared_read_latency))
    let values := values.set 11 (Float8GetDatum (INSTR_TIME_GET_MILLISEC t.shared_write_latency))
    let values := values.set 12 (Int64GetDatum t.local_read_ps)
    let values := values.set 13 (Int64GetDatum t.local_write_ps)
    let values := values.set 14 (Int64GetDatum t.local_read_throughput)
    let values := values.set 15 (Int64GetDatum t.local_write_throughput)
    let values := values.set 16 (Float8GetDatum (INSTR_TIME_GET_MILLISEC t.local_read_latency))
    let values := values.set 17 (Float8GetDatum (INSTR_TIME_GET_MILLISEC t.local_write_latency))
    (values, nulls)
  | none =>
    (values, (List.range' 6 12).foldl (fun nulls cols => nulls.set cols true) nulls)

/-! ## `polar_stat_process` -/

/-- The constant `PG_STAT_GET_POLAR_PROCESS_COLS`. -/
def PG_STAT_GET_POLAR_PROCESS_COLS : Nat := 20

/-- The body of the loop of `polar_stat_process` for registry slot
`curr_backend`: the tuplestore after the iteration. -/
def polar_stat_process_body (w : World) (tupstore : Tuplestorestate) (curr_backend : Nat) :
    Tuplestorestate :=
  let values := List.replicate PG_STAT_GET_POLAR_PROCESS_COLS Datum.zero
  let nulls := List.replicate PG_STAT_GET_POLAR_PROCESS_COLS false
  let cur_collect_time : instr_time := 0
  match w.pgstat_fetch_stat_local_beentry curr_backend with
  | none =>
    let nulls := (List.range nulls.length).foldl (fun nulls i => nulls.set i true) nulls
    tuplestore_putvalues tupstore values nulls
  | some local_beentry =>
    let beentry := local_beentry.backendStatus
    let values := values.set 0 (Int32GetDatum beentry.st_procpid)
    let values := values.set 19 (UInt64GetDatum beentry.st_query_id)
    let proc := w.BackendPidGetProc beentry.st_procpid
    let proc :=
      if beentry.st_backendType ≠ BackendType.B_BACKEND then
        w.AuxiliaryPidGetProc beentry.st_procpid
      else proc
    let (values, nulls) :=
      match proc with
      | some proc =>
        let cur_wait_stack_index := proc.cur_wait_stack_index
        if cur_wait_stack_index < 0 ∨ cur_wait_stack_index > 3 then
          (values, ((nulls.set 1 true).set 2 true).set 18 true)
        else
          let cur_collect_object := proc.wait_object cur_wait_stack_index.toNat
          let cur_collect_type := proc.wait_type cur_wait_stack_index.toNat
          let cur_collect_time :=
            INSTR_TIME_ADD cur_collect_time (proc.wait_time cur_wait_stack_index.toNat)
          if !INSTR_TIME_IS_ZERO cur_collect_time then
            let wait_time := w.INSTR_TIME_SET_CURRENT curr_backend
            let wait_time := INSTR_TIME_SUBTRACT wait_time cur_collect_time
            let values := values.set 1 (Int32GetDatum cur_collect_object)
            let values := values.set 2 (Float8GetDatum (INSTR_TIME_GET_MILLISEC wait_time))
            let values :=
              if cur_collect_type = PGPROC_WAIT_PID then
                values.set 18 (CStringGetTextDatum "pid")
              else if cur_collect_type = PGPROC_WAIT_FD then
                values.set 18 (CStringGetTextDatum "fd")
              else
                values.set 18 (CStringGetTextDatum "unknow")
            (values, nulls)
          else
            (values, ((nulls.set 1 true).set 2 true).set 18 true)
      | none =>
        (values, ((nulls.set 1 true).set 2 true).set 18 true)
    let (values, nulls) :=
      match w.polar_get_proc_stat beentry.st_procpid with
      | some procstat =>
        let values := values.set 3 (Int64GetDatum procstat.utime)
        let values := values.set 4 (Int64GetDatum procstat.stime)
        let values := values.set 5 (Int64GetDatum (procstat.rss - procstat.share))
        (values, nulls)
      | none =>
        (values, ((nulls.set 3 true).set 4 true).set 5 true)
    let (values, nulls) := set_polar_proc_iostat w.PolarIOStatArray beentry.backendid values nulls
    tuplestore_putvalues tupstore values nulls

/-- The function `polar_stat_process`: the rows it stores, for `curr_backend`
from 1 to `num_backends`. -/
def polar_stat_process (w : World) : Tuplestorestate :=
  let num_backends := w.pgstat_fetch_stat_numbackends
  (List.range' 1 num_backends).foldl (polar_stat_process_body w) []

/-! ## `polar_stat_io_info` -/

/-- The constant `POLARIOSTATSIZE`. -/
def POLARIOSTATSIZE : Nat := 20

/-- The message of the `elog(ERROR, ...)` of the two detail views. -/
def io_statistics_unavailable : String := "Io statistics is unavailable!"

/-- One of the two blocks of the inner loop of `polar_stat_io_info` that fill
`values[]` and store a row: `location` is the literal the block writes ("pfs" or
"local") and `stat` the cell it reads (`cur_polar_proc_io_stat[index][POLARIO_SHARED]`
or `[POLARIO_LOCAL]`); the two blocks of the source differ in nothing else. -/
def polar_stat_io_info_put (tupstore : Tuplestorestate) (cur_pid : Int) (index : Nat)
    (location : String) (stat : PolarProcIOStat) : Tuplestorestate :=
  let values := List.replicate POLARIOSTATSIZE Datum.zero
  let nulls := List.replicate POLARIOSTATSIZE false
  let values := values.set 0 (Int32GetDatum cur_pid)
  let values := values.set 1 (CStringGetTextDatum (polar_dir_type_names.getD index ""))
  let values := values.set 2 (CStringGetTextDatum location)
  let values := values.set 3 (Int64GetDatum stat.io_open_num)
  let values := values.set 4 (Float8GetDatum (INSTR_TIME_GET_MICROSEC stat.io_open_time))
  let values := values.set 5 (Int64GetDatum stat.io_close_num)
  let values := values.set 6 (Int64GetDatum stat.io_number_read)
  let values := values.set 7 (Int64GetDatum stat.io_number_write)
  let values := values.set 8 (Int64GetDatum stat.io_throughtput_read)
  let values := values.set 9 (Int64GetDatum stat.io_throughtput_write)
  let values := values.set 10 (Float8GetDatum (INSTR_TIME_GET_MICROSEC stat.io_latency_read))
  let values := values.set 11 (Float8GetDatum (INSTR_TIME_GET_MICROSEC stat.io_latency_write))
  let values := values.set 12 (Int64GetDatum stat.io_seek_count)
  let values := values.set 13 (Float8GetDatum (INSTR_TIME_GET_MICROSEC stat.io_seek_time))
  let values := values.set 14 (Int64GetDatum stat.io_creat_count)
  let values := values.set 15 (Float8GetDatum (INSTR_TIME_GET_MICROSEC stat.io_creat_time))
  let values := values.set 16 (Int64GetDatum stat.io_fsync_count)
  let values := values.set 17 (Float8GetDatum (INSTR_TIME_GET_MICROSEC stat.io_fsync_time))
  let values := values.set 18 (Int64GetDatum stat.io_falloc_count)
  let values := values.set 19 (Float8GetDatum (INSTR_TIME_GET_MICROSEC stat.io_falloc_time))
  tuplestore_putvalues tupstore values nulls

/-- The body of the inner loop of `polar_stat_io_info` for directory category
`index`: the "pfs" row, then the "local" row. -/
def polar_stat_io_info_inner (cur_pid : Int)
    (cur_polar_proc_io_stat : Nat → Nat → PolarProcIOStat) (tupstore : Tuplestorestate)
    (index : Nat) : Tuplestorestate :=
  let tupstore := polar_stat_io_info_put tupstore cur_pid index "pfs"
    (cur_polar_proc_io_stat index POLARIO_SHARED)
  polar_stat_io_info_put tupstore cur_pid index "local"
    (cur_polar_proc_io_stat index POLARIO_LOCAL)

/-- The body of the outer loop of `polar_stat_io_info` for slot `curr_backend`. -/
def polar_stat_io_info_body (arr : Int → PolarCollectIoStat) (tupstore : Tuplestorestate)
    (curr_backend : Nat) : Tuplestorestate :=
  let cur_pid : Int := if curr_backend = 0 then 0 else (arr curr_backend).pid
  if curr_backend > 0 ∧ cur_pid ≤ 0 then
    tupstore
  else
    let cur_polar_proc_io_stat := (arr curr_backend).polar_proc_io_stat_dist
    (List.range POLARIO_TYPE_SIZE).foldl
      (polar_stat_io_info_inner cur_pid cur_polar_proc_io_stat) tupstore

/-- The function `polar_stat_io_info`: the error it raises or the rows it
stores, for `curr_backend` from 0 below `PolarNumProcIOStatSlots`. -/
def polar_stat_io_info (w : World) : Except String Tuplestorestate :=
  match w.PolarIOStatArray with
  | none => Except.error io_statistics_unavailable
  | some arr =>
    Except.ok ((List.range w.PolarNumProcIOStatSlots).foldl (polar_stat_io_info_body arr) [])

/-! ## `polar_io_latency_info` -/

/-- The body of the loop over `index` (the operation kind) of
`polar_io_latency_info`: fills `values[]` and stores the row of `(loc, index)`. -/
def polar_io_latency_info_inner (cur_pid : Int) (cur_num_latency_dist : Nat → Nat → Nat → Nat)
    (loc : Nat) (tupstore : Tuplestorestate) (index : Nat) : Tuplestorestate :=
  let values := List.replicate (LATENCY_INTERVAL_LEN + 3) Datum.zero
  let nulls := List.replicate (LATENCY_INTERVAL_LEN + 3) false
  let values := values.set 0 (Int32GetDatum cur_pid)
  let values := values.set 1 (CStringGetTextDatum (polar_io_loc_names.getD loc ""))
  let values := values.set 2 (CStringGetTextDatum (polar_io_kind_names.getD index ""))
  let values := (List.range LATENCY_INTERVAL_LEN).foldl
    (fun values cur => values.set (cur + 3) (Int64GetDatum (cur_num_latency_dist loc index cur)))
    values
  tuplestore_putvalues tupstore values nulls

/-- The body of the outer loop of `polar_io_latency_info` for slot
`curr_backend`. -/
def polar_io_latency_info_body (arr : Int → PolarCollectIoStat) (tupstore : Tuplestorestate)
    (curr_backend : Nat) : Tuplestorestate :=
  let cur_pid : Int := if curr_backend = 0 then 0 else (arr curr_backend).pid
  if curr_backend > 0 ∧ cur_pid ≤ 0 then
    tupstore
  else
    let cur_num_latency_dist := (arr curr_backend).num_latency_dist
    (List.range POLARIO_LOC_SIZE).foldl
      (fun tupstore loc =>
        (List.range LATENCY_KIND_LEN).foldl
          (polar_io_latency_info_inner cur_pid cur_num_latency_dist loc) tupstore)
      tupstore

/-- The slot indices the loop of `polar_io_latency_info` visits: `curr_backend`
from 0 up to and including `PolarNumProcIOStatSlots`. -/
def polar_io_latency_info_slots (w : World) : List Nat :=
  List.range (w.PolarNumProcIOStatSlots + 1)

/-- The function `polar_io_latency_info`: the error it raises or the rows it
stores. -/
def polar_io_latency_info (w : World) : Except String Tuplestorestate :=
  match w.PolarIOStatArray with
  | none => Except.error io_statistics_unavailable
  | some arr =>
    Except.ok ((polar_io_latency_info_slots w).foldl (polar_io_latency_info_body arr) [])

/-! ## Closed forms of the rows

The definitions below are not in the source: they describe, column by column,
the rows the loops above store, and are proved equal to them further down. -/

/-- The value of `proc` in `polar_stat_process` once both lookups are done:
`BackendPidGetProc`, replaced by `AuxiliaryPidGetProc` for an entry that is not
a `B_BACKEND`. -/
def summary_proc (w : World) (beentry : PgBackendStatus) : Option PGPROC :=
  if beentry.st_backendType ≠ BackendType.B_BACKEND then
    w.AuxiliaryPidGetProc beentry.st_procpid
  else w.BackendPidGetProc beentry.st_procpid

/-- The string the `switch` of `polar_stat_process` stores for wait kind `k`. -/
def wait_type_text (k : Int) : String :=
  if k = PGPROC_WAIT_PID then "pid" else if k = PGPROC_WAIT_FD then "fd" else "unknow"

/-- Columns 1, 2 and 18 of a summary row (`wait_object`, `wait_time`,
`wait_type`), from the process entry and the clock reading. -/
def summary_wait (proc : Option PGPROC) (now : instr_time) :
    Option Datum × Option Datum × Option Datum :=
  match proc with
  | none => (none, none, none)
  | some p =>
    if p.cur_wait_stack_index < 0 ∨ p.cur_wait_stack_index > 3 then (none, none, none)
    else if p.wait_time p.cur_wait_stack_index.toNat = 0 then (none, none, none)
    else
      (some (Int32GetDatum (p.wait_object p.cur_wait_stack_index.toNat)),
       some (Float8GetDatum (INSTR_TIME_GET_MILLISEC
         (now - p.wait_time p.cur_wait_stack_index.toNat))),
       some (CStringGetTextDatum (wait_type_text (p.wait_type p.cur_wait_stack_index.toNat))))

/-- Columns 3, 4 and 5 of a summary row (`cpu_user`, `cpu_sys`, `rss`), from the
sampler's answer. -/
def summary_cpu (s : Option polar_proc_stat) : List (Option Datum) :=
  match s with
  | none => [none, none, none]
  | some s => [some (Int64GetDatum s.utime), some (Int64GetDatum s.stime),
      some (Int64GetDatum (s.rss - s.share))]

/-- The twelve totals of slot `backendid`: per location and field, the sum over
the directory categories, modulo `2 ^ 64` for the `uint64` fields. -/
def io_totals (dist : Nat → Nat → PolarProcIOStat) : IoTotals :=
  let total (f : PolarProcIOStat → Nat) (loc : Nat) : Nat :=
    ((List.range POLARIO_TYPE_SIZE).map (fun index => f (dist index loc))).sum % 2 ^ 64
  let span (f : PolarProcIOStat → instr_time) (loc : Nat) : instr_time :=
    ((List.range POLARIO_TYPE_SIZE).map (fun index => f (dist index loc))).sum
  { shared_read_ps := total (fun c => c.io_number_read) POLARIO_SHARED
    shared_write_ps := total (fun c => c.io_number_write) POLARIO_SHARED
    shared_read_throughput := total (fun c => c.io_throughtput_read) POLARIO_SHARED
    shared_write_throughput := total (fun c => c.io_throughtput_write) POLARIO_SHARED
    shared_read_latency := span (fun c => c.io_latency_read) POLARIO_SHARED
    shared_write_latency := span (fun c => c.io_latency_write) POLARIO_SHARED
    local_read_ps := total (fun c => c.io_number_read) POLARIO_LOCAL
    local_write_ps := total (fun c => c.io_number_write) POLARIO_LOCAL
    local_read_throughput := total (fun c => c.io_throughtput_read) POLARIO_LOCAL
    local_write_throughput := total (fun c => c.io_throughtput_write) POLARIO_LOCAL
    local_read_latency := span (fun c => c.io_latency_read) POLARIO_LOCAL
    local_write_latency := span (fun c => c.io_latency_write) POLARIO_LOCAL }

/-- Columns 6 to 17 of a summary row. -/
def summary_io (tbl : Option (Int → PolarCollectIoStat)) (backendid : Int) :
    List (Option Datum) :=
  match tbl with
  | none => List.replicate 12 none
  | some arr =>
    let t := io_totals (arr backendid).polar_proc_io_stat_dist
    [some (Int64GetDatum t.shared_read_ps), some (Int64GetDatum t.shared_write_ps),
     some (Int64GetDatum t.shared_read_throughput),
     some (Int64GetDatum t.shared_write_throughput),
     some (Float8GetDatum (INSTR_TIME_GET_MILLISEC t.shared_read_latency)),
     some (Float8GetDatum (INSTR_TIME_GET_MILLISEC t.shared_write_latency)),
     some (Int64GetDatum t.local_read_ps), some (Int64GetDatum t.local_write_ps),
     some (Int64GetDatum t.local_read_throughput),
     some (Int64GetDatum t.local_write_throughput),
     some (Float8GetDatum (INSTR_TIME_GET_MILLISEC t.local_read_latency)),
     some (Float8GetDatum (INSTR_TIME_GET_MILLISEC t.local_write_latency))]

/-- The row `polar_stat_process` stores for registry slot `k`. -/
def summary_row (w : World) (k : Nat) : Row :=
  match w.pgstat_fetch_stat_local_beentry k with
  | none => List.replicate 20 none
  | some e =>
    let b := e.backendStatus
    let wt := summary_wait (summary_proc w b) (w.INSTR_TIME_SET_CURRENT k)
    [some (Int32GetDatum b.st_procpid), wt.1, wt.2.1] ++
      summary_cpu (w.polar_get_proc_stat b.st_procpid) ++
      summary_io w.PolarIOStatArray b.backendid ++
      [wt.2.2, some (UInt64GetDatum b.st_query_id)]

/-- The pid `polar_stat_io_info` and `polar_io_latency_info` report for slot `b`
(the local `cur_pid`): 0 for slot 0, the slot's `pid` field otherwise. -/
def detail_cur_pid (arr : Int → PolarCollectIoStat) (b : Nat) : Int :=
  if b = 0 then 0 else (arr b).pid

/-- A row of `polar_stat_io_info`, column by column: pid, category name, location
name, and the 17 fields of the cell, times in whole microseconds. -/
def io_detail_row (cur_pid : Int) (category location : String) (stat : PolarProcIOStat) : Row :=
  [some (Int32GetDatum cur_pid), some (CStringGetTextDatum category),
   some (CStringGetTextDatum location),
   some (Int64GetDatum stat.io_open_num),
   some (Float8GetDatum (INSTR_TIME_GET_MICROSEC stat.io_open_time)),
   some (Int64GetDatum stat.io_close_num),
   some (Int64GetDatum stat.io_number_read),
   some (Int64GetDatum stat.io_number_write),
   some (Int64GetDatum stat.io_throughtput_read),
   some (Int64GetDatum stat.io_throughtput_write),
   some (Float8GetDatum (INSTR_TIME_GET_MICROSEC stat.io_latency_read)),
   some (Float8GetDatum (INSTR_TIME_GET_MICROSEC stat.io_latency_write)),
   some (Int64GetDatum stat.io_seek_count),
   some (Float8GetDatum (INSTR_TIME_GET_MICROSEC stat.io_seek_time)),
   some (Int64GetDatum stat.io_creat_count),
   some (Float8GetDatum (INSTR_TIME_GET_MICROSEC stat.io_creat_time)),
   some (Int64GetDatum stat.io_fsync_count),
   some (Float8GetDatum (INSTR_TIME_GET_MICROSEC stat.io_fsync_time)),
   some (Int64GetDatum stat.io_falloc_count),
   some (Float8GetDatum (INSTR_TIME_GET_MICROSEC stat.io_falloc_time))]

/-- The 22 rows of one slot in `polar_stat_io_info`: for each directory category
in the order of `polar_dir_type_names`, the "pfs" row of the shared cell, then
the "local" row of the local cell. -/
def io_detail_slot (cur_pid : Int) (dist : Nat → Nat → PolarProcIOStat) : List Row :=
  polar_dir_type_names.enum.flatMap (fun c =>
    [io_detail_row cur_pid c.2 "pfs" (dist c.1 POLARIO_SHARED),
     io_detail_row cur_pid c.2 "local" (dist c.1 POLARIO_LOCAL)])

/-- A row of `polar_io_latency_info`, column by column: pid, location name, kind
name, and the eight bucket counts of `(loc, kind)`. -/
def latency_row (cur_pid : Int) (dist : Nat → Nat → Nat → Nat) (loc kind : Nat) : Row :=
  [some (Int32GetDatum cur_pid), some (CStringGetTextDatum (polar_io_loc_names.getD loc "")),
   some (CStringGetTextDatum (polar_io_kind_names.getD kind ""))] ++
  (List.range LATENCY_INTERVAL_LEN).map (fun j => some (Int64GetDatum (dist loc kind j)))

/-- The 14 rows of one slot in `polar_io_latency_info`: location-major, then
operation kind. -/
def latency_slot (cur_pid : Int) (dist : Nat → Nat → Nat → Nat) : List Row :=
  (List.range POLARIO_LOC_SIZE).flatMap (fun loc =>
    (List.range LATENCY_KIND_LEN).map (fun kind => latency_row cur_pid dist loc kind))

/-! ## Concrete inputs -/

/-- A cell with distinct field values. -/
def sample_cell : PolarProcIOStat :=
  { io_open_num := 1, io_open_time := 2000, io_close_num := 3, io_number_read := 4,
    io_number_write := 5, io_throughtput_read := 6, io_throughtput_write := 7,
    io_latency_read := 8000000, io_latency_write := 9000, io_seek_count := 10,
    io_seek_time := 11000, io_creat_count := 12, io_creat_time := 13000,
    io_fsync_count := 14, io_fsync_time := 15000, io_falloc_count := 16,
    io_falloc_time := 17000 }

/-- A stat table in which every slot holds `pid` and the cell `sample_cell`
everywhere. -/
def sample_table (pid : Int) : Int → PolarCollectIoStat :=
  fun _ => { pid := pid, polar_proc_io_stat_dist := fun _ _ => sample_cell,
             num_latency_dist := fun loc kind j => loc + kind + j }

/-- A process whose wait stack has one entry: object 17, of kind `kind`, begun at
time `start`. -/
def sample_proc (kind : Int) (start : instr_time) : PGPROC :=
  { cur_wait_stack_index := 0, wait_object := fun _ => 17, wait_type := fun _ => kind,
    wait_time := fun _ => start }

/-- A registry of two slots: slot 1 is the backend with pid 50 and backend id 1,
slot 2 has no entry. The process with pid 50 waits on object 17 with wait kind
`kind` since time `start`; the clock reads `now`; the sampler answers `sample`;
the stat table is `tbl`, with two slots. -/
def sample_world (kind : Int) (start now : instr_time) (sample : Option polar_proc_stat)
    (tbl : Option (Int → PolarCollectIoStat)) : World :=
  { pgstat_fetch_stat_numbackends := 2
    pgstat_fetch_stat_local_beentry := fun i =>
      if i = 1 then
        some { backendStatus := { st_procpid := 50, st_query_id := 99,
                                  st_backendType := BackendType.B_BACKEND, backendid := 1 } }
      else none
    BackendPidGetProc := fun pid => if pid = 50 then some (sample_proc kind start) else none
    AuxiliaryPidGetProc := fun _ => none
    polar_get_proc_stat := fun _ => sample
    INSTR_TIME_SET_CURRENT := fun _ => now
    PolarIOStatArray := tbl
    PolarNumProcIOStatSlots := 2 }

/-- The sample world with everything available: the process with pid 50 waits on
a file descriptor since time 5, the clock reads 10000005, the sampler answers,
and the stat table is there. -/
def world_available : World :=
  sample_world PGPROC_WAIT_FD 5 10000005
    (some { utime := 1, stime := 2, rss := 30, share := 4 }) (some (sample_table 1234))

/-- The sample world without a stat table (`PolarIOStatArray` is null). -/
def world_no_table : World :=
  sample_world PGPROC_WAIT_FD 5 10000005
    (some { utime := 1, stime := 2, rss := 30, share := 4 }) none

/-- The first registry entry of the sample worlds. -/
def sample_entry : LocalPgBackendStatus :=
  { backendStatus := { st_procpid := 50, st_query_id := 99,
                       st_backendType := BackendType.B_BACKEND, backendid := 1 } }

/-- The sample world in which the sampler fails for every pid. -/
def world_no_sample : World :=
  sample_world PGPROC_WAIT_FD 5 10000005 none (some (sample_table 1234))

/-- The sample world read at the very instant the wait began: the wait of the
process with pid 50 began at time 5 and the clock reads 5. -/
def world_clock_at_start : World :=
  sample_world PGPROC_WAIT_FD 5 5
    (some { utime := 1, stime := 2, rss := 30, share := 4 }) (some (sample_table 1234))

/-- The sample world in which the process with pid 50 has an active wait of kind
7, which is neither `PGPROC_WAIT_PID` nor `PGPROC_WAIT_FD`. -/
def world_other_wait_kind : World :=
  sample_world 7 5 10000005
    (some { utime := 1, stime := 2, rss := 30, share := 4 }) (some (sample_table 1234))

/-- A cell with every counter at zero. -/
def zero_cell : PolarProcIOStat :=
  { io_open_num := 0, io_open_time := 0, io_close_num := 0, io_number_read := 0,
    io_number_write := 0, io_throughtput_read := 0, io_throughtput_write := 0,
    io_latency_read := 0, io_latency_write := 0, io_seek_count := 0, io_seek_time := 0,
    io_creat_count := 0, io_creat_time := 0, io_fsync_count := 0, io_fsync_time := 0,
    io_falloc_count := 0, io_falloc_time := 0 }

/-- A stat table as it is after allocation: every slot empty (pid 0, counters 0). -/
def empty_table : Int → PolarCollectIoStat :=
  fun _ => { pid := 0, polar_proc_io_stat_dist := fun _ _ => zero_cell,
             num_latency_dist := fun _ _ _ => 0 }

/-- The sample world with the empty stat table. -/
def world_empty_table : World :=
  sample_world PGPROC_WAIT_FD 5 10000005
    (some { utime := 1, stime := 2, rss := 30, share := 4 }) (some empty_table)

/-- A slot holding `pid`, with every counter at zero. -/
def idle_slot (pid : Int) : PolarCollectIoStat :=
  { pid := pid, polar_proc_io_stat_dist := fun _ _ => zero_cell,
    num_latency_dist := fun _ _ _ => 0 }

/-- Memory around a stat table of two slots, both empty (indices 0 and 1, pid 0):
what lies right after the table, at index 2, reads as a slot with pid 777. -/
def table_then_other_memory : Int → PolarCollectIoStat :=
  fun i => if i = 2 then idle_slot 777 else idle_slot 0

/-- The sample world over `table_then_other_memory`;
`PolarNumProcIOStatSlots` is 2. -/
def world_other_memory : World :=
  sample_world PGPROC_WAIT_FD 5 10000005
    (some { utime := 1, stime := 2, rss := 30, share := 4 }) (some table_then_other_memory)

/-! ## The detail views over memory that may be unreadable

The embeddings of `polar_stat_io_info` and `polar_io_latency_info` above read
`PolarIOStatArray[i]` as if every address were readable. Below the same loops
run over memory in which the read of a slot may fault. -/

/-- How a call fails: `error msg` is `elog(ERROR, msg)`; `fault index` is a read
of `PolarIOStatArray[index]` at an address that is not readable, which ends the
process. -/
inductive Failure where
  | error (msg : String)
  | fault (index : Int)
  deriving DecidableEq, Repr

/-- One iteration of the outer loop of `polar_stat_io_info` over memory `mem`,
where `mem i` is the slot read at `PolarIOStatArray[i]`, or `none` when that
address is not readable. Every read of the iteration (the `pid`, the cells) is
within `PolarIOStatArray[curr_backend]`: it faults when that slot is not
readable, and is otherwise the iteration `polar_stat_io_info_body` on the slot
read. -/
def polar_stat_io_info_body_mem (mem : Int → Option PolarCollectIoStat)
    (tupstore : Tuplestorestate) (curr_backend : Nat) : Except Failure Tuplestorestate :=
  match mem curr_backend with
  | none => Except.error (Failure.fault curr_backend)
  | some slot => Except.ok (polar_stat_io_info_body (fun _ => slot) tupstore curr_backend)

/-- The function `polar_stat_io_info` over memory that may be unreadable, with
the globals it reads as arguments: `curr_backend` runs from 0 below
`PolarNumProcIOStatSlots`. -/
def polar_stat_io_info_mem (PolarIOStatArray : Option (Int → Option PolarCollectIoStat))
    (PolarNumProcIOStatSlots : Nat) : Except Failure Tuplestorestate :=
  match PolarIOStatArray with
  | none => Except.error (Failure.error io_statistics_unavailable)
  | some mem =>
    (List.range PolarNumProcIOStatSlots).foldlM (polar_stat_io_info_body_mem mem) []

/-- One iteration of the outer loop of `polar_io_latency_info` over memory
`mem`: every read of the iteration (the `pid`, the bucket counts) is within
`PolarIOStatArray[curr_backend]`; it faults when that slot is not readable, and
is otherwise the iteration `polar_io_latency_info_body` on the slot read. -/
def polar_io_latency_info_body_mem (mem : Int → Option PolarCollectIoStat)
    (tupstore : Tuplestorestate) (curr_backend : Nat) : Except Failure Tuplestorestate :=
  match mem curr_backend with
  | none => Except.error (Failure.fault curr_backend)
  | some slot => Except.ok (polar_io_latency_info_body (fun _ => slot) tupstore curr_backend)

/-- The function `polar_io_latency_info` over memory that may be unreadable, with
the globals it reads as arguments: `curr_backend` runs from 0 up to and
including `PolarNumProcIOStatSlots`. -/
def polar_io_latency_info_mem (PolarIOStatArray : Option (Int → Option PolarCollectIoStat))
    (PolarNumProcIOStatSlots : Nat) : Except Failure Tuplestorestate :=
  match PolarIOStatArray with
  | none => Except.error (Failure.error io_statistics_unavailable)
  | some mem =>
    (List.range (PolarNumProcIOStatSlots + 1)).foldlM (polar_io_latency_info_body_mem mem) []

/-- A stat table of two slots, the slots 0 and 1 of `sample_table 1234`, in
memory that is not readable outside the table. -/
def table_in_guarded_memory : Int → Option PolarCollectIoStat :=
  fun i => if i = 0 ∨ i = 1 then some (sample_table 1234 i) else none

/-- A stat table of three slots: slots 0 and 1 are empty (pid 0), slot 2 holds
pid 4321 and the cell `sample_cell` everywhere. -/
def table_one_live_slot : Int → PolarCollectIoStat :=
  fun i => if i = 2 then sample_table 4321 i else idle_slot 0

/-- The sample world over `table_one_live_slot`, with
`PolarNumProcIOStatSlots` 3. -/
def world_one_live_slot : World :=
  { world_available with
    PolarIOStatArray := some table_one_live_slot
    PolarNumProcIOStatSlots := 3 }

/-! ## Lemmas -/

theorem foldl_append_rows {α : Type} (f : Tuplestorestate → α → Tuplestorestate)
    (g : α → List Row) (hf : ∀ ts a, f ts a = ts ++ g a) (l : List α)
    (init : Tuplestorestate) : l.foldl f init = init ++ l.flatMap g := by
  induction l generalizing init with
  | nil => simp
  | cons a l ih => simp [List.foldl_cons, hf, ih, List.append_assoc]

theorem replicate_twenty {α : Type} (x : α) :
    List.replicate 20 x = [x, x, x, x, x, x, x, x, x, x, x, x, x, x, x, x, x, x, x, x] := rfl

theorem replicate_twelve {α : Type} (x : α) :
    List.replicate 12 x = [x, x, x, x, x, x, x, x, x, x, x, x] := rfl

/-- Two lists that differ only in a middle segment agree at every index outside
that segment. -/
theorem getElem?_outside_segment {α : Type} (pre mid mid2 post : List α)
    (hl : mid.length = mid2.length) (j : Nat)
    (hj : j < pre.length ∨ pre.length + mid.length ≤ j) :
    (pre ++ mid ++ post)[j]? = (pre ++ mid2 ++ post)[j]? := by
  rcases hj with hj | hj
  · rw [List.append_assoc, List.append_assoc, List.getElem?_append_left hj,
      List.getElem?_append_left hj]
  · have h1 : (pre ++ mid).length ≤ j := by simp; omega
    have h2 : (pre ++ mid2).length ≤ j := by simp; omega
    rw [List.getElem?_append_right h1, List.getElem?_append_right h2]
    simp [hl]

theorem INSTR_TIME_GET_MILLISEC_pos (t : instr_time) : 0 < INSTR_TIME_GET_MILLISEC t ↔ 0 < t := by
  unfold INSTR_TIME_GET_MILLISEC
  constructor
  · intro h
    have : (0 : ℚ) < (t : ℚ) := by
      by_contra hn
      have hle : (t : ℚ) ≤ 0 := not_lt.mp hn
      have : (t : ℚ) / 1000000 ≤ 0 := div_nonpos_of_nonpos_of_nonneg hle (by norm_num)
      linarith
    exact_mod_cast this
  · intro h
    have : (0 : ℚ) < (t : ℚ) := by exact_mod_cast h
    positivity

/-- The loop of `set_polar_proc_iostat` computes the totals `io_totals`. -/
theorem set_polar_proc_iostat_fold (dist : Nat → Nat → PolarProcIOStat) :
    (List.range POLARIO_TYPE_SIZE).foldl (set_polar_proc_iostat_step dist) IoTotals.init
      = io_totals dist := by
  simp only [POLARIO_TYPE_SIZE, List.range, List.range.loop, List.foldl_cons, List.foldl_nil,
    set_polar_proc_iostat_step, IoTotals.init, io_totals, INSTR_TIME_ADD, List.map_cons,
    List.map_nil, List.sum_cons, List.sum_nil, IoTotals.mk.injEq]
  refine ⟨?_, ?_, ?_, ?_, ?_, ?_, ?_, ?_, ?_, ?_, ?_, ?_⟩ <;> first | omega | ring

theorem polar_stat_process_body_eq (w : World) (ts : Tuplestorestate) (k : Nat) :
    polar_stat_process_body w ts k = ts ++ [summary_row w k] := by
  unfold polar_stat_process_body summary_row
  cases hE : w.pgstat_fetch_stat_local_beentry k with
  | none =>
    simp [tuplestore_putvalues, PG_STAT_GET_POLAR_PROCESS_COLS, replicate_twenty, List.range,
      List.range.loop]
  | some e =>
    simp only [summary_proc, summary_wait, summary_cpu, summary_io, set_polar_proc_iostat,
      INSTR_TIME_IS_ZERO, INSTR_TIME_ADD, INSTR_TIME_SUBTRACT, wait_type_text,
      set_polar_proc_iostat_fold]
    cases hP : (if e.backendStatus.st_backendType ≠ BackendType.B_BACKEND then
        w.AuxiliaryPidGetProc e.backendStatus.st_procpid
      else w.BackendPidGetProc e.backendStatus.st_procpid) <;>
    cases hS : w.polar_get_proc_stat e.backendStatus.st_procpid <;>
    cases hT : w.PolarIOStatArray <;>
    simp only [hP, hS, hT] <;>
    (try split_ifs) <;>
    simp_all [tuplestore_putvalues, PG_STAT_GET_POLAR_PROCESS_COLS, replicate_twenty, List.range']

theorem polar_stat_process_eq_map (w : World) :
    polar_stat_process w =
      (List.range' 1 w.pgstat_fetch_stat_numbackends).map (summary_row w) := by
  unfold polar_stat_process
  rw [foldl_append_rows _ (fun k => [summary_row w k]) (polar_stat_process_body_eq w)]
  generalize List.range' 1 w.pgstat_fetch_stat_numbackends = l
  induction l with
  | nil => rfl
  | cons a l ih => simpa using ih

theorem polar_stat_process_getElem? (w : World) (i : Nat)
    (hi : i < w.pgstat_fetch_stat_numbackends) :
    (polar_stat_process w)[i]? = some (summary_row w (i + 1)) := by
  rw [polar_stat_process_eq_map, List.getElem?_map, List.getElem?_range' _ _ hi]
  simp [Nat.add_comm]

theorem summary_cpu_length (s : Option polar_proc_stat) : (summary_cpu s).length = 3 := by
  cases s <;> rfl

theorem summary_io_length (tbl : Option (Int → PolarCollectIoStat)) (b : Int) :
    (summary_io tbl b).length = 12 := by
  cases tbl <;> rfl

theorem summary_row_entry (w : World) (k : Nat) (e : LocalPgBackendStatus)
    (hE : w.pgstat_fetch_stat_local_beentry k = some e) :
    summary_row w k =
      [some (Int32GetDatum e.backendStatus.st_procpid),
        (summary_wait (summary_proc w e.backendStatus) (w.INSTR_TIME_SET_CURRENT k)).1,
        (summary_wait (summary_proc w e.backendStatus) (w.INSTR_TIME_SET_CURRENT k)).2.1] ++
      summary_cpu (w.polar_get_proc_stat e.backendStatus.st_procpid) ++
      summary_io w.PolarIOStatArray e.backendStatus.backendid ++
      [(summary_wait (summary_proc w e.backendStatus) (w.INSTR_TIME_SET_CURRENT k)).2.2,
        some (UInt64GetDatum e.backendStatus.st_query_id)] := by
  simp [summary_row, hE]

theorem polar_stat_io_info_put_eq (ts : Tuplestorestate) (cur_pid : Int) (index : Nat)
    (location : String) (stat : PolarProcIOStat) :
    polar_stat_io_info_put ts cur_pid index location stat =
      ts ++ [io_detail_row cur_pid (polar_dir_type_names.getD index "") location stat] := by
  simp [polar_stat_io_info_put, io_detail_row, tuplestore_putvalues, POLARIOSTATSIZE,
    replicate_twenty, Int32GetDatum, Int64GetDatum, Float8GetDatum, CStringGetTextDatum,
    INSTR_TIME_GET_MICROSEC]

theorem polar_stat_io_info_body_eq (arr : Int → PolarCollectIoStat) (ts : Tuplestorestate)
    (b : Nat) :
    polar_stat_io_info_body arr ts b =
      ts ++ (if b = 0 ∨ 0 < (arr b).pid then
        io_detail_slot (detail_cur_pid arr b) (arr b).polar_proc_io_stat_dist else []) := by
  unfold polar_stat_io_info_body
  by_cases hb : b = 0
  · subst hb
    simp only [gt_iff_lt, lt_self_iff_false, false_and, if_false, true_or, if_true]
    rw [foldl_append_rows _ (fun index =>
      [io_detail_row 0 (polar_dir_type_names.getD index "") "pfs"
         ((arr (0 : Nat)).polar_proc_io_stat_dist index POLARIO_SHARED),
       io_detail_row 0 (polar_dir_type_names.getD index "") "local"
         ((arr (0 : Nat)).polar_proc_io_stat_dist index POLARIO_LOCAL)])]
    · rfl
    · intro ts a
      simp [polar_stat_io_info_inner, polar_stat_io_info_put_eq]
  · have hpos : 0 < b := Nat.pos_of_ne_zero hb
    by_cases hp : (arr b).pid ≤ 0
    · simp [hb, hpos, hp, not_lt.mpr hp]
    · have hp2 : 0 < (arr b).pid := not_le.mp hp
      simp only [hb, if_false, hp, and_false, hp2, or_true, if_true, detail_cur_pid]
      rw [foldl_append_rows _ (fun index =>
        [io_detail_row (arr b).pid (polar_dir_type_names.getD index "") "pfs"
           ((arr b).polar_proc_io_stat_dist index POLARIO_SHARED),
         io_detail_row (arr b).pid (polar_dir_type_names.getD index "") "local"
           ((arr b).polar_proc_io_stat_dist index POLARIO_LOCAL)])]
      · rfl
      · intro ts a
        simp [polar_stat_io_info_inner, polar_stat_io_info_put_eq]

theorem polar_stat_io_info_eq (w : World) (arr : Int → PolarCollectIoStat)
    (hT : w.PolarIOStatArray = some arr) :
    polar_stat_io_info w = Except.ok ((List.range w.PolarNumProcIOStatSlots).flatMap (fun b =>
      if b = 0 ∨ 0 < (arr b).pid then
        io_detail_slot (detail_cur_pid arr b) (arr b).polar_proc_io_stat_dist else [])) := by
  simp only [polar_stat_io_info, hT]
  rw [foldl_append_rows _ _ (polar_stat_io_info_body_eq arr)]
  simp

theorem polar_io_latency_info_inner_eq (cur_pid : Int) (dist : Nat → Nat → Nat → Nat)
    (loc : Nat) (ts : Tuplestorestate) (index : Nat) :
    polar_io_latency_info_inner cur_pid dist loc ts index =
      ts ++ [latency_row cur_pid dist loc index] := by
  simp [polar_io_latency_info_inner, latency_row, tuplestore_putvalues, LATENCY_INTERVAL_LEN,
    List.range, List.range.loop, List.replicate, Int32GetDatum, Int64GetDatum,
    CStringGetTextDatum]

theorem polar_io_latency_info_body_eq (arr : Int → PolarCollectIoStat)
    (ts : Tuplestorestate) (b : Nat) :
    polar_io_latency_info_body arr ts b =
      ts ++ (if b = 0 ∨ 0 < (arr b).pid then
        latency_slot (detail_cur_pid arr b) (arr b).num_latency_dist else []) := by
  have key : ∀ (cur_pid : Int) (ts : Tuplestorestate),
      (List.range POLARIO_LOC_SIZE).foldl
        (fun tupstore loc =>
          (List.range LATENCY_KIND_LEN).foldl
            (polar_io_latency_info_inner cur_pid (arr b).num_latency_dist loc) tupstore) ts
        = ts ++ latency_slot cur_pid (arr b).num_latency_dist := by
    intro cur_pid ts
    rw [foldl_append_rows _ (fun loc => (List.range LATENCY_KIND_LEN).map
      (fun kind => latency_row cur_pid (arr b).num_latency_dist loc kind))]
    · rfl
    · intro ts loc
      rw [foldl_append_rows _ (fun kind => [latency_row cur_pid (arr b).num_latency_dist loc kind])
        (polar_io_latency_info_inner_eq cur_pid (arr b).num_latency_dist loc)]
      generalize List.range LATENCY_KIND_LEN = l
      induction l with
      | nil => rfl
      | cons a l ih => simpa using ih
  unfold polar_io_latency_info_body
  by_cases hb : b = 0
  · subst hb
    simp only [gt_iff_lt, lt_self_iff_false, false_and, if_false, true_or, if_true,
      detail_cur_pid]
    exact key 0 ts
  · have hpos : 0 < b := Nat.pos_of_ne_zero hb
    by_cases hp : (arr b).pid ≤ 0
    · simp [hb, hpos, hp, not_lt.mpr hp]
    · have hp2 : 0 < (arr b).pid := not_le.mp hp
      simp only [hb, if_false, hp, and_false, hp2, or_true, if_true, detail_cur_pid]
      exact key _ ts

theorem io_detail_slot_pid_column (cur_pid : Int) (dist : Nat → Nat → PolarProcIOStat)
    (row : Row) (h : row ∈ io_detail_slot cur_pid dist) :
    row[0]? = some (some (Int32GetDatum cur_pid)) := by
  simp only [io_detail_slot, List.mem_flatMap] at h
  obtain ⟨c, -, hrow⟩ := h
  simp only [List.mem_cons, List.mem_singleton, List.not_mem_nil, or_false] at hrow
  rcases hrow with h | h <;> rw [h] <;> rfl

theorem latency_slot_pid_column (cur_pid : Int) (dist : Nat → Nat → Nat → Nat)
    (row : Row) (h : row ∈ latency_slot cur_pid dist) :
    row[0]? = some (some (Int32GetDatum cur_pid)) := by
  simp only [latency_slot, List.mem_flatMap, List.mem_map] at h
  obtain ⟨loc, -, kind, -, hrow⟩ := h
  rw [← hrow]
  rfl

/-- Over memory that is readable at every index, `polar_stat_io_info` and
`polar_io_latency_info` raise the error "Io statistics is unavailable!" exactly
when `PolarIOStatArray` is null, and return a list of rows exactly when it is
not. -/
theorem detail_views_unavailable_iff (w : World) :
    (polar_stat_io_info w = Except.error io_statistics_unavailable ↔
        w.PolarIOStatArray = none) ∧
    (polar_io_latency_info w = Except.error io_statistics_unavailable ↔
        w.PolarIOStatArray = none) ∧
    ((∃ rows, polar_stat_io_info w = Except.ok rows) ↔ w.PolarIOStatArray ≠ none) ∧
    ((∃ rows, polar_io_latency_info w = Except.ok rows) ↔ w.PolarIOStatArray ≠ none) := by
  cases hT : w.PolarIOStatArray with
  | none => simp [polar_stat_io_info, polar_io_latency_info, hT]
  | some arr => simp [polar_stat_io_info, polar_io_latency_info, hT]

/-- A monadic fold whose every step succeeds is the plain fold. -/
theorem foldlM_ok_of_steps {α β ε : Type} (f : β → α → Except ε β) (g : β → α → β)
    (l : List α) (h : ∀ a ∈ l, ∀ b, f b a = Except.ok (g b a)) (init : β) :
    l.foldlM f init = Except.ok (l.foldl g init) := by
  induction l generalizing init with
  | nil => rfl
  | cons a l ih =>
    rw [List.foldlM_cons, h a (List.mem_cons_self a l) init, List.foldl_cons]
    exact ih (fun x hx b => h x (List.mem_cons_of_mem a hx) b) (g init a)

/-- Over memory that is readable on the whole table, `polar_stat_io_info`
returns the rows of the embedding above. -/
theorem polar_stat_io_info_mem_readable (mem : Int → Option PolarCollectIoStat)
    (arr : Int → PolarCollectIoStat) (N : Nat)
    (h : ∀ i : Nat, i < N → mem i = some (arr i)) :
    polar_stat_io_info_mem (some mem) N =
      Except.ok ((List.range N).foldl (polar_stat_io_info_body arr) []) := by
  unfold polar_stat_io_info_mem
  apply foldlM_ok_of_steps
  intro a ha b
  simp only [polar_stat_io_info_body_mem, h a (List.mem_range.mp ha)]
  rfl

/-- Over memory that is readable on the table and at the index after it,
`polar_io_latency_info` returns the rows of the embedding above. -/
theorem polar_io_latency_info_mem_readable (mem : Int → Option PolarCollectIoStat)
    (arr : Int → PolarCollectIoStat) (N : Nat)
    (h : ∀ i : Nat, i ≤ N → mem i = some (arr i)) :
    polar_io_latency_info_mem (some mem) N =
      Except.ok ((List.range (N + 1)).foldl (polar_io_latency_info_body arr) []) := by
  unfold polar_io_latency_info_mem
  apply foldlM_ok_of_steps
  intro a ha b
  simp only [polar_io_latency_info_body_mem,
    h a (Nat.lt_succ_iff.mp (List.mem_range.mp ha))]
  rfl

/-- Over memory that is readable on the table and not at the index after it,
`polar_io_latency_info` faults at that index. -/
theorem polar_io_latency_info_mem_fault (mem : Int → Option PolarCollectIoStat)
    (arr : Int → PolarCollectIoStat) (N : Nat)
    (h : ∀ i : Nat, i < N → mem i = some (arr i)) (hN : mem N = none) :
    polar_io_latency_info_mem (some mem) N = Except.error (Failure.fault N) := by
  unfold polar_io_latency_info_mem
  simp only [List.range_succ, List.foldlM_append]
  rw [foldlM_ok_of_steps _ (polar_io_latency_info_body arr)]
  · simp [polar_io_latency_info_body_mem, hN, bind, Except.bind]
  · intro a ha b
    simp only [polar_io_latency_info_body_mem, h a (List.mem_range.mp ha)]
    rfl

/-- A monadic fold none of whose steps raises `Failure.error` does not raise it. -/
theorem foldlM_no_error {α β : Type} (f : β → α → Except Failure β) (l : List α)
    (h : ∀ a b msg, f b a ≠ Except.error (Failure.error msg)) (init : β) (msg : String) :
    l.foldlM f init ≠ Except.error (Failure.error msg) := by
  induction l generalizing init with
  | nil => intro hc; cases hc
  | cons a l ih =>
    rw [List.foldlM_cons]
    cases hf : f init a with
    | error e =>
      intro hc
      apply h a init msg
      rw [hf]
      simpa [bind, Except.bind] using hc
    | ok x => simpa [bind, Except.bind] using ih x

/-- Over memory that may be unreadable, both detail views raise the error
"Io statistics is unavailable!" exactly when `PolarIOStatArray` is null. -/
theorem detail_views_mem_unavailable_iff (tbl : Option (Int → Option PolarCollectIoStat))
    (N : Nat) :
    (polar_stat_io_info_mem tbl N = Except.error (Failure.error io_statistics_unavailable) ↔
        tbl = none) ∧
    (polar_io_latency_info_mem tbl N = Except.error (Failure.error io_statistics_unavailable) ↔
        tbl = none) := by
  cases tbl with
  | none => simp [polar_stat_io_info_mem, polar_io_latency_info_mem]
  | some mem =>
    simp only [polar_stat_io_info_mem, polar_io_latency_info_mem, reduceCtorEq, iff_false]
    constructor
    · apply foldlM_no_error
      intro a b msg
      unfold polar_stat_io_info_body_mem
      cases mem a <;> simp
    · apply foldlM_no_error
      intro a b msg
      unfold polar_io_latency_info_body_mem
      cases mem a <;> simp

/-! ## The claims -/

/-- C1: `polar_stat_process` stores exactly `num_backends` rows, for every state
of the registry, of the stat table (null or not), of the process array and of
the sampler. -/
theorem polar_stat_process_row_count (w : World) :
    (polar_stat_process w).length = w.pgstat_fetch_stat_numbackends := by
  simp [polar_stat_process_eq_map]

/-- C2, on a table of two slots in memory that is not readable after the table:
`PolarIOStatArray` is not null, `polar_stat_io_info` returns its 44 rows, and
`polar_io_latency_info` does not return: its scan goes on to index 2, and the
read of `PolarIOStatArray[2]` faults. -/
theorem latency_view_faults_past_table :
    table_in_guarded_memory 0 = some (sample_table 1234 0) ∧
    table_in_guarded_memory 1 = some (sample_table 1234 1) ∧
    table_in_guarded_memory 2 = none ∧
    (∃ rows, polar_stat_io_info_mem (some table_in_guarded_memory) 2 = Except.ok rows ∧
      rows.length = 44) ∧
    polar_io_latency_info_mem (some table_in_guarded_memory) 2 =
      Except.error (Failure.fault 2) ∧
    ∀ rows, polar_io_latency_info_mem (some table_in_guarded_memory) 2 ≠ Except.ok rows := by
  refine ⟨rfl, rfl, rfl, ⟨_, rfl, rfl⟩, rfl, ?_⟩
  intro rows h
  have h2 : polar_io_latency_info_mem (some table_in_guarded_memory) 2 =
      Except.error (Failure.fault 2) := rfl
  rw [h2] at h
  cases h

/-- C3 as stated fails: with the empty stat table (every pid 0) both detail views
return rows, the rows of slot 0, and their pid column is 0. -/
theorem detail_views_report_slot_zero :
    (empty_table 0).pid = 0 ∧
    (∃ rows row, polar_stat_io_info world_empty_table = Except.ok rows ∧
      rows[0]? = some row ∧ row[0]? = some (some (Int32GetDatum 0))) ∧
    (∃ rows row, polar_io_latency_info world_empty_table = Except.ok rows ∧
      rows[0]? = some row ∧ row[0]? = some (some (Int32GetDatum 0))) :=
  ⟨rfl, ⟨_, _, rfl, rfl, rfl⟩, ⟨_, _, rfl, rfl, rfl⟩⟩

/-- C3, amended: with a stat table in place, every row of `polar_stat_io_info`
and every row `polar_io_latency_info` stores while its scan is on the slots of
the table (indices below `PolarNumProcIOStatSlots`) is either a row of slot 0,
with pid column 0, or a row of a slot of index above 0 whose pid is above 0,
with that pid in its pid column; a slot of index above 0 whose pid is 0 or less
adds no row to either view. Nothing is said of what `polar_io_latency_info`
stores after the rows of the table's slots. -/
theorem detail_views_pid_column (w : World) (arr : Int → PolarCollectIoStat)
    (hT : w.PolarIOStatArray = some arr) :
    (∃ rows, polar_stat_io_info w = Except.ok rows ∧ ∀ row ∈ rows,
      ∃ b ∈ List.range w.PolarNumProcIOStatSlots,
        (b = 0 ∧ row[0]? = some (some (Int32GetDatum 0))) ∨
        (0 < b ∧ 0 < (arr b).pid ∧ row[0]? = some (some (Int32GetDatum (arr b).pid)))) ∧
    (∃ rows after, polar_io_latency_info w = Except.ok (rows ++ after) ∧
      rows = (List.range w.PolarNumProcIOStatSlots).foldl (polar_io_latency_info_body arr) [] ∧
      ∀ row ∈ rows,
        ∃ b ∈ List.range w.PolarNumProcIOStatSlots,
          (b = 0 ∧ row[0]? = some (some (Int32GetDatum 0))) ∨
          (0 < b ∧ 0 < (arr b).pid ∧ row[0]? = some (some (Int32GetDatum (arr b).pid)))) ∧
    (∀ (ts : Tuplestorestate) (b : Nat), 0 < b → (arr b).pid ≤ 0 →
      polar_stat_io_info_body arr ts b = ts ∧ polar_io_latency_info_body arr ts b = ts) := by
  refine ⟨⟨_, polar_stat_io_info_eq w arr hT, ?_⟩, ?_, ?_⟩
  · intro row hrow
    rw [List.mem_flatMap] at hrow
    obtain ⟨b, hb, hmem⟩ := hrow
    refine ⟨b, hb, ?_⟩
    by_cases h0 : b = 0
    · left
      subst h0
      simp only [true_or, if_true] at hmem
      exact ⟨rfl, by simpa [detail_cur_pid] using io_detail_slot_pid_column _ _ row hmem⟩
    · right
      by_cases hp : 0 < (arr b).pid
      · simp only [hp, or_true, if_true] at hmem
        exact ⟨Nat.pos_of_ne_zero h0, hp,
          by simpa [detail_cur_pid, h0] using io_detail_slot_pid_column _ _ row hmem⟩
      · simp [h0, hp] at hmem
  · refine ⟨(List.range w.PolarNumProcIOStatSlots).foldl (polar_io_latency_info_body arr) [],
      polar_io_latency_info_body arr [] w.PolarNumProcIOStatSlots, ?_, rfl, ?_⟩
    · simp only [polar_io_latency_info, hT, polar_io_latency_info_slots, List.range_succ,
        List.foldl_append, List.foldl_cons, List.foldl_nil]
      rw [polar_io_latency_info_body_eq arr _ w.PolarNumProcIOStatSlots,
        polar_io_latency_info_body_eq arr [] w.PolarNumProcIOStatSlots]
      simp
    · intro row hrow
      rw [foldl_append_rows _ _ (polar_io_latency_info_body_eq arr), List.nil_append,
        List.mem_flatMap] at hrow
      obtain ⟨b, hb, hmem⟩ := hrow
      refine ⟨b, hb, ?_⟩
      by_cases h0 : b = 0
      · left
        subst h0
        simp only [true_or, if_true] at hmem
        exact ⟨rfl, by simpa [detail_cur_pid] using latency_slot_pid_column _ _ row hmem⟩
      · right
        by_cases hp : 0 < (arr b).pid
        · simp only [hp, or_true, if_true] at hmem
          exact ⟨Nat.pos_of_ne_zero h0, hp,
            by simpa [detail_cur_pid, h0] using latency_slot_pid_column _ _ row hmem⟩
        · simp [h0, hp] at hmem
  · intro ts b hb hp
    have hb0 : b ≠ 0 := Nat.pos_iff_ne_zero.mp hb
    simp [polar_stat_io_info_body_eq, polar_io_latency_info_body_eq, hb0, not_lt.mpr hp]

/-- The witness of the amended C3: a table of three slots of which slot 1 is
empty, and is skipped by both views, and slot 2 holds pid 4321. -/
theorem detail_views_pid_column_witness :
    world_one_live_slot.PolarIOStatArray = some table_one_live_slot ∧
    ((∃ rows, polar_stat_io_info world_one_live_slot = Except.ok rows ∧ ∀ row ∈ rows,
      ∃ b ∈ List.range world_one_live_slot.PolarNumProcIOStatSlots,
        (b = 0 ∧ row[0]? = some (some (Int32GetDatum 0))) ∨
        (0 < b ∧ 0 < (table_one_live_slot b).pid ∧
          row[0]? = some (some (Int32GetDatum (table_one_live_slot b).pid)))) ∧
    (∃ rows after, polar_io_latency_info world_one_live_slot = Except.ok (rows ++ after) ∧
      rows = (List.range world_one_live_slot.PolarNumProcIOStatSlots).foldl
        (polar_io_latency_info_body table_one_live_slot) [] ∧
      ∀ row ∈ rows,
        ∃ b ∈ List.range world_one_live_slot.PolarNumProcIOStatSlots,
          (b = 0 ∧ row[0]? = some (some (Int32GetDatum 0))) ∨
          (0 < b ∧ 0 < (table_one_live_slot b).pid ∧
            row[0]? = some (some (Int32GetDatum (table_one_live_slot b).pid)))) ∧
    (∀ (ts : Tuplestorestate) (b : Nat), 0 < b → (table_one_live_slot b).pid ≤ 0 →
      polar_stat_io_info_body table_one_live_slot ts b = ts ∧
      polar_io_latency_info_body table_one_live_slot ts b = ts)) ∧
    ((table_one_live_slot (1 : Nat)).pid ≤ 0 ∧
      polar_stat_io_info_body table_one_live_slot [] 1 = [] ∧
      polar_io_latency_info_body table_one_live_slot [] 1 = []) ∧
    (0 < (table_one_live_slot (2 : Nat)).pid ∧
      (polar_stat_io_info_body table_one_live_slot [] 2).length = 22 ∧
      (polar_io_latency_info_body table_one_live_slot [] 2).length = 14) :=
  ⟨rfl, detail_views_pid_column world_one_live_slot table_one_live_slot rfl,
    ⟨by decide,
      (detail_views_pid_column world_one_live_slot table_one_live_slot rfl).2.2 [] 1
        (by decide) (by decide)⟩,
    ⟨by decide, rfl, rfl⟩⟩

/-- C4: when `PolarIOStatArray` is null, the row of a registry slot that has an
entry has columns 6 to 17 null and its pid column set to the entry's pid; every
column outside 6..17 is what it is with any stat table in place. -/
theorem summary_row_without_table (w : World) (i : Nat) (e : LocalPgBackendStatus)
    (hT : w.PolarIOStatArray = none) (hi : i < w.pgstat_fetch_stat_numbackends)
    (hE : w.pgstat_fetch_stat_local_beentry (i + 1) = some e) :
    ∃ row, (polar_stat_process w)[i]? = some row ∧
      (∀ j, 6 ≤ j → j ≤ 17 → row[j]? = some none) ∧
      row[0]? = some (some (Int32GetDatum e.backendStatus.st_procpid)) ∧
      (∀ (arr : Int → PolarCollectIoStat) (j : Nat), j < 6 ∨ 17 < j →
        ∃ row2, (polar_stat_process { w with PolarIOStatArray := some arr })[i]? = some row2 ∧
          row[j]? = row2[j]?) := by
  refine ⟨summary_row w (i + 1), polar_stat_process_getElem? w i hi, ?_, ?_, ?_⟩
  · intro j h6 h17
    rw [summary_row_entry w _ e hE, hT]
    cases hS : w.polar_get_proc_stat e.backendStatus.st_procpid <;>
    simp only [summary_cpu, summary_io, replicate_twelve, List.cons_append, List.nil_append] <;>
    interval_cases j <;> rfl
  · rw [summary_row_entry w _ e hE]
    simp
  · intro arr j hj
    refine ⟨summary_row { w with PolarIOStatArray := some arr } (i + 1),
      polar_stat_process_getElem? { w with PolarIOStatArray := some arr } i hi, ?_⟩
    rw [summary_row_entry w _ e hE,
      summary_row_entry { w with PolarIOStatArray := some arr } _ e hE]
    apply getElem?_outside_segment
    · simp [summary_io_length]
    · simp only [List.length_append, List.length_cons, List.length_nil, summary_cpu_length,
        summary_io_length]
      omega

/-- The witness of C4: the first row of the sample world without a stat table. -/
theorem summary_row_without_table_witness :
    (world_no_table.PolarIOStatArray = none ∧
      0 < world_no_table.pgstat_fetch_stat_numbackends ∧
      world_no_table.pgstat_fetch_stat_local_beentry (0 + 1) = some sample_entry) ∧
    ∃ row, (polar_stat_process world_no_table)[0]? = some row ∧
      (∀ j, 6 ≤ j → j ≤ 17 → row[j]? = some none) ∧
      row[0]? = some (some (Int32GetDatum sample_entry.backendStatus.st_procpid)) ∧
      (∀ (arr : Int → PolarCollectIoStat) (j : Nat), j < 6 ∨ 17 < j →
        ∃ row2, (polar_stat_process { world_no_table with PolarIOStatArray := some arr })[0]?
            = some row2 ∧
          row[j]? = row2[j]?) :=
  ⟨⟨rfl, by decide, rfl⟩,
    summary_row_without_table world_no_table 0 sample_entry rfl (by decide) rfl⟩

/-- C5: with a stat table in place, `set_polar_proc_iostat` writes into columns
6..11 the totals of the shared location and into columns 12..17 the totals of the
local location of slot `backendid`: per field, the sum over the 11 directory
categories, modulo `2 ^ 64` for the counts and byte totals, and the plain sum of
the cumulative times, reported in milliseconds; it leaves `nulls[]` and every
other column as they were. -/
theorem set_polar_proc_iostat_totals (arr : Int → PolarCollectIoStat) (backendid : Int)
    (values : List Datum) (nulls : List Bool) (hv : values.length = 20) :
    let dist := (arr backendid).polar_proc_io_stat_dist
    let total : (PolarProcIOStat → Nat) → Nat → Nat := fun f loc =>
      ((List.range POLARIO_TYPE_SIZE).map (fun index => f (dist index loc))).sum % 2 ^ 64
    let span : (PolarProcIOStat → instr_time) → Nat → instr_time := fun f loc =>
      ((List.range POLARIO_TYPE_SIZE).map (fun index => f (dist index loc))).sum
    let out := set_polar_proc_iostat (some arr) backendid values nulls
    out.2 = nulls ∧
    out.1[6]? = some (Int64GetDatum (total (fun c => c.io_number_read) POLARIO_SHARED)) ∧
    out.1[7]? = some (Int64GetDatum (total (fun c => c.io_number_write) POLARIO_SHARED)) ∧
    out.1[8]? = some (Int64GetDatum (total (fun c => c.io_throughtput_read) POLARIO_SHARED)) ∧
    out.1[9]? = some (Int64GetDatum (total (fun c => c.io_throughtput_write) POLARIO_SHARED)) ∧
    out.1[10]? = some (Float8GetDatum
      (INSTR_TIME_GET_MILLISEC (span (fun c => c.io_latency_read) POLARIO_SHARED))) ∧
    out.1[11]? = some (Float8GetDatum
      (INSTR_TIME_GET_MILLISEC (span (fun c => c.io_latency_write) POLARIO_SHARED))) ∧
    out.1[12]? = some (Int64GetDatum (total (fun c => c.io_number_read) POLARIO_LOCAL)) ∧
    out.1[13]? = some (Int64GetDatum (total (fun c => c.io_number_write) POLARIO_LOCAL)) ∧
    out.1[14]? = some (Int64GetDatum (total (fun c => c.io_throughtput_read) POLARIO_LOCAL)) ∧
    out.1[15]? = some (Int64GetDatum (total (fun c => c.io_throughtput_write) POLARIO_LOCAL)) ∧
    out.1[16]? = some (Float8GetDatum
      (INSTR_TIME_GET_MILLISEC (span (fun c => c.io_latency_read) POLARIO_LOCAL))) ∧
    out.1[17]? = some (Float8GetDatum
      (INSTR_TIME_GET_MILLISEC (span (fun c => c.io_latency_write) POLARIO_LOCAL))) ∧
    ∀ j, j < 6 ∨ 17 < j → out.1[j]? = values[j]? := by
  intro dist total span out
  have hout : out = set_polar_proc_iostat (some arr) backendid values nulls := rfl
  simp only [set_polar_proc_iostat, set_polar_proc_iostat_fold, io_totals] at hout
  rw [hout]
  refine ⟨rfl, ?_, ?_, ?_, ?_, ?_, ?_, ?_, ?_, ?_, ?_, ?_, ?_, ?_⟩
  all_goals first
    | (intro j hj
       have h6 : j ≠ 6 := by omega
       have h7 : j ≠ 7 := by omega
       have h8 : j ≠ 8 := by omega
       have h9 : j ≠ 9 := by omega
       have h10 : j ≠ 10 := by omega
       have h11 : j ≠ 11 := by omega
       have h12 : j ≠ 12 := by omega
       have h13 : j ≠ 13 := by omega
       have h14 : j ≠ 14 := by omega
       have h15 : j ≠ 15 := by omega
       have h16 : j ≠ 16 := by omega
       have h17 : j ≠ 17 := by omega
       simp [List.getElem?_set, Ne.symm h6, Ne.symm h7, Ne.symm h8, Ne.symm h9, Ne.symm h10,
         Ne.symm h11, Ne.symm h12, Ne.symm h13, Ne.symm h14, Ne.symm h15, Ne.symm h16,
         Ne.symm h17])
    | simp [List.getElem?_set, hv, total, span, dist]

/-- The witness of C5: slot 1 of the sample table, into fresh arrays. -/
theorem set_polar_proc_iostat_totals_witness :
    (List.replicate 20 Datum.zero).length = 20 ∧
    (let dist := (sample_table 1234 1).polar_proc_io_stat_dist
    let total : (PolarProcIOStat → Nat) → Nat → Nat := fun f loc =>
      ((List.range POLARIO_TYPE_SIZE).map (fun index => f (dist index loc))).sum % 2 ^ 64
    let span : (PolarProcIOStat → instr_time) → Nat → instr_time := fun f loc =>
      ((List.range POLARIO_TYPE_SIZE).map (fun index => f (dist index loc))).sum
    let out := set_polar_proc_iostat (some (sample_table 1234)) 1
      (List.replicate 20 Datum.zero) (List.replicate 20 false)
    out.2 = List.replicate 20 false ∧
    out.1[6]? = some (Int64GetDatum (total (fun c => c.io_number_read) POLARIO_SHARED)) ∧
    out.1[7]? = some (Int64GetDatum (total (fun c => c.io_number_write) POLARIO_SHARED)) ∧
    out.1[8]? = some (Int64GetDatum (total (fun c => c.io_throughtput_read) POLARIO_SHARED)) ∧
    out.1[9]? = some (Int64GetDatum (total (fun c => c.io_throughtput_write) POLARIO_SHARED)) ∧
    out.1[10]? = some (Float8GetDatum
      (INSTR_TIME_GET_MILLISEC (span (fun c => c.io_latency_read) POLARIO_SHARED))) ∧
    out.1[11]? = some (Float8GetDatum
      (INSTR_TIME_GET_MILLISEC (span (fun c => c.io_latency_write) POLARIO_SHARED))) ∧
    out.1[12]? = some (Int64GetDatum (total (fun c => c.io_number_read) POLARIO_LOCAL)) ∧
    out.1[13]? = some (Int64GetDatum (total (fun c => c.io_number_write) POLARIO_LOCAL)) ∧
    out.1[14]? = some (Int64GetDatum (total (fun c => c.io_throughtput_read) POLARIO_LOCAL)) ∧
    out.1[15]? = some (Int64GetDatum (total (fun c => c.io_throughtput_write) POLARIO_LOCAL)) ∧
    out.1[16]? = some (Float8GetDatum
      (INSTR_TIME_GET_MILLISEC (span (fun c => c.io_latency_read) POLARIO_LOCAL))) ∧
    out.1[17]? = some (Float8GetDatum
      (INSTR_TIME_GET_MILLISEC (span (fun c => c.io_latency_write) POLARIO_LOCAL))) ∧
    ∀ j, j < 6 ∨ 17 < j → out.1[j]? = (List.replicate 20 Datum.zero)[j]?) :=
  ⟨rfl, set_polar_proc_iostat_totals (sample_table 1234) 1 (List.replicate 20 Datum.zero)
    (List.replicate 20 false) rfl⟩

/-- C6, at a wait of a kind other than pid and fd: the process with pid 50 has
an active top-of-stack wait on object 17 of kind 7; its row reports
`wait_object = 17` and the `wait_type` text "unknow", which is not "unknown". -/
theorem wait_type_of_other_kind :
    ((polar_stat_process world_other_wait_kind)[0]?).bind (fun row => row[1]?) =
        some (some (Int32GetDatum 17)) ∧
    ((polar_stat_process world_other_wait_kind)[0]?).bind (fun row => row[18]?) =
        some (some (CStringGetTextDatum "unknow")) ∧
    CStringGetTextDatum "unknow" ≠ CStringGetTextDatum "unknown" := by
  decide

/-- C7 as stated fails: read at the instant the wait began (clock 5, start 5), the
elapsed time is zero and yet `wait_object`, `wait_time` and `wait_type` are not
null, `wait_time` being 0. -/
theorem wait_columns_at_zero_elapsed :
    world_clock_at_start.INSTR_TIME_SET_CURRENT 1 - 5 = 0 ∧
    ((polar_stat_process world_clock_at_start)[0]?).bind (fun row => row[1]?) =
        some (some (Int32GetDatum 17)) ∧
    ((polar_stat_process world_clock_at_start)[0]?).bind (fun row => row[2]?) =
        some (some (Float8GetDatum 0)) ∧
    ((polar_stat_process world_clock_at_start)[0]?).bind (fun row => row[18]?) =
        some (some (CStringGetTextDatum "fd")) := by
  refine ⟨by decide, by decide, ?_, by decide⟩
  simp [polar_stat_process_getElem?, world_clock_at_start, sample_world, summary_row,
    summary_wait, summary_proc, sample_proc, summary_cpu, summary_io, INSTR_TIME_GET_MILLISEC]

/-- C7, amended: in the row of a registry slot that has an entry, `wait_object`,
`wait_time` and `wait_type` (columns 1, 2, 18) are all null when no process entry
is found, when the top index of the wait stack is outside 0..3, and when the
start timestamp of the top entry is zero; otherwise all three are non-null,
`wait_object` is the object of the top entry and `wait_time` is the clock reading
minus the start timestamp, in milliseconds, which is strictly positive exactly
when the clock reading is later than the start. -/
theorem summary_row_wait_columns (w : World) (i : Nat) (e : LocalPgBackendStatus)
    (hi : i < w.pgstat_fetch_stat_numbackends)
    (hE : w.pgstat_fetch_stat_local_beentry (i + 1) = some e) :
    ∃ row, (polar_stat_process w)[i]? = some row ∧
      (summary_proc w e.backendStatus = none →
        row[1]? = some none ∧ row[2]? = some none ∧ row[18]? = some none) ∧
      (∀ p, summary_proc w e.backendStatus = some p →
        (p.cur_wait_stack_index < 0 ∨ 3 < p.cur_wait_stack_index ∨
            p.wait_time p.cur_wait_stack_index.toNat = 0 →
          row[1]? = some none ∧ row[2]? = some none ∧ row[18]? = some none) ∧
        (0 ≤ p.cur_wait_stack_index → p.cur_wait_stack_index ≤ 3 →
            p.wait_time p.cur_wait_stack_index.toNat ≠ 0 →
          row[1]? = some (some (Int32GetDatum (p.wait_object p.cur_wait_stack_index.toNat))) ∧
          row[2]? = some (some (Float8GetDatum (INSTR_TIME_GET_MILLISEC
            (w.INSTR_TIME_SET_CURRENT (i + 1) - p.wait_time p.cur_wait_stack_index.toNat)))) ∧
          (∃ s, row[18]? = some (some (CStringGetTextDatum s))) ∧
          (0 < INSTR_TIME_GET_MILLISEC
              (w.INSTR_TIME_SET_CURRENT (i + 1) - p.wait_time p.cur_wait_stack_index.toNat) ↔
            p.wait_time p.cur_wait_stack_index.toNat < w.INSTR_TIME_SET_CURRENT (i + 1)))) := by
  refine ⟨summary_row w (i + 1), polar_stat_process_getElem? w i hi, ?_, ?_⟩
  · intro hP
    rw [summary_row_entry w _ e hE, hP]
    cases hS : w.polar_get_proc_stat e.backendStatus.st_procpid <;>
    cases hT : w.PolarIOStatArray <;>
    simp [summary_wait, summary_cpu, summary_io, replicate_twelve]
  · intro p hP
    rw [summary_row_entry w _ e hE, hP]
    constructor
    · intro h
      have hw : summary_wait (some p) (w.INSTR_TIME_SET_CURRENT (i + 1)) = (none, none, none) := by
        unfold summary_wait
        rcases h with h | h | h
        · simp [h]
        · simp [h]
        · simp [h]
      rw [hw]
      cases hS : w.polar_get_proc_stat e.backendStatus.st_procpid <;>
      cases hT : w.PolarIOStatArray <;>
      simp [summary_cpu, summary_io, replicate_twelve]
    · intro h0 h3 hne
      have hw : summary_wait (some p) (w.INSTR_TIME_SET_CURRENT (i + 1)) =
          (some (Int32GetDatum (p.wait_object p.cur_wait_stack_index.toNat)),
           some (Float8GetDatum (INSTR_TIME_GET_MILLISEC
             (w.INSTR_TIME_SET_CURRENT (i + 1) - p.wait_time p.cur_wait_stack_index.toNat))),
           some (CStringGetTextDatum
             (wait_type_text (p.wait_type p.cur_wait_stack_index.toNat)))) := by
        unfold summary_wait
        simp [not_lt.mpr h0, not_lt.mpr h3, hne]
      rw [hw]
      refine ⟨?_, ?_, ⟨wait_type_text (p.wait_type p.cur_wait_stack_index.toNat), ?_⟩, ?_⟩
      · simp
      · simp
      · cases hS : w.polar_get_proc_stat e.backendStatus.st_procpid <;>
        cases hT : w.PolarIOStatArray <;>
        simp [summary_cpu, summary_io, replicate_twelve]
      · rw [INSTR_TIME_GET_MILLISEC_pos]
        exact sub_pos

/-- The witness of the amended C7: the first row of the sample world. -/
theorem summary_row_wait_columns_witness :
    (0 < world_available.pgstat_fetch_stat_numbackends ∧
      world_available.pgstat_fetch_stat_local_beentry (0 + 1) = some sample_entry) ∧
    ∃ row, (polar_stat_process world_available)[0]? = some row ∧
      (summary_proc world_available sample_entry.backendStatus = none →
        row[1]? = some none ∧ row[2]? = some none ∧ row[18]? = some none) ∧
      (∀ p, summary_proc world_available sample_entry.backendStatus = some p →
        (p.cur_wait_stack_index < 0 ∨ 3 < p.cur_wait_stack_index ∨
            p.wait_time p.cur_wait_stack_index.toNat = 0 →
          row[1]? = some none ∧ row[2]? = some none ∧ row[18]? = some none) ∧
        (0 ≤ p.cur_wait_stack_index → p.cur_wait_stack_index ≤ 3 →
            p.wait_time p.cur_wait_stack_index.toNat ≠ 0 →
          row[1]? = some (some (Int32GetDatum (p.wait_object p.cur_wait_stack_index.toNat))) ∧
          row[2]? = some (some (Float8GetDatum (INSTR_TIME_GET_MILLISEC
            (world_available.INSTR_TIME_SET_CURRENT (0 + 1) -
              p.wait_time p.cur_wait_stack_index.toNat)))) ∧
          (∃ s, row[18]? = some (some (CStringGetTextDatum s))) ∧
          (0 < INSTR_TIME_GET_MILLISEC
              (world_available.INSTR_TIME_SET_CURRENT (0 + 1) -
                p.wait_time p.cur_wait_stack_index.toNat) ↔
            p.wait_time p.cur_wait_stack_index.toNat <
              world_available.INSTR_TIME_SET_CURRENT (0 + 1)))) :=
  ⟨⟨by decide, rfl⟩, summary_row_wait_columns world_available 0 sample_entry (by decide) rfl⟩

/-- C8: in the row of a registry slot that has an entry, columns 3, 4 and 5 are
all null when the sampler fails for the entry's pid, and otherwise hold `utime`,
`stime` and `rss - share` of the sample; whatever the sampler answers, the number
of rows is the same and every other column of the row is the same. -/
theorem summary_row_sampling (w : World) (i : Nat) (e : LocalPgBackendStatus)
    (hi : i < w.pgstat_fetch_stat_numbackends)
    (hE : w.pgstat_fetch_stat_local_beentry (i + 1) = some e) :
    ∃ row, (polar_stat_process w)[i]? = some row ∧
      (w.polar_get_proc_stat e.backendStatus.st_procpid = none →
        row[3]? = some none ∧ row[4]? = some none ∧ row[5]? = some none) ∧
      (∀ s, w.polar_get_proc_stat e.backendStatus.st_procpid = some s →
        row[3]? = some (some (Int64GetDatum s.utime)) ∧
        row[4]? = some (some (Int64GetDatum s.stime)) ∧
        row[5]? = some (some (Int64GetDatum (s.rss - s.share)))) ∧
      (∀ g : Int → Option polar_proc_stat,
        (polar_stat_process { w with polar_get_proc_stat := g }).length =
          (polar_stat_process w).length ∧
        ∃ row2, (polar_stat_process { w with polar_get_proc_stat := g })[i]? = some row2 ∧
          ∀ j, j ≠ 3 → j ≠ 4 → j ≠ 5 → row2[j]? = row[j]?) := by
  refine ⟨summary_row w (i + 1), polar_stat_process_getElem? w i hi, ?_, ?_, ?_⟩
  · intro hS
    rw [summary_row_entry w _ e hE, hS]
    simp [summary_cpu]
  · intro s hS
    rw [summary_row_entry w _ e hE, hS]
    simp [summary_cpu]
  · intro g
    refine ⟨by simp [polar_stat_process_eq_map], summary_row { w with polar_get_proc_stat := g } (i + 1),
      polar_stat_process_getElem? { w with polar_get_proc_stat := g } i hi, ?_⟩
    intro j h3 h4 h5
    rw [summary_row_entry w _ e hE,
      summary_row_entry { w with polar_get_proc_stat := g } _ e hE]
    simp only [List.append_assoc _ (summary_io _ _) _]
    apply getElem?_outside_segment
    · simp [summary_cpu_length]
    · simp only [List.length_cons, List.length_nil, summary_cpu_length]
      omega

/-- The witness of C8: the first row of the sample world whose sampler fails. -/
theorem summary_row_sampling_witness :
    (0 < world_no_sample.pgstat_fetch_stat_numbackends ∧
      world_no_sample.pgstat_fetch_stat_local_beentry (0 + 1) = some sample_entry) ∧
    ∃ row, (polar_stat_process world_no_sample)[0]? = some row ∧
      (world_no_sample.polar_get_proc_stat sample_entry.backendStatus.st_procpid = none →
        row[3]? = some none ∧ row[4]? = some none ∧ row[5]? = some none) ∧
      (∀ s, world_no_sample.polar_get_proc_stat sample_entry.backendStatus.st_procpid = some s →
        row[3]? = some (some (Int64GetDatum s.utime)) ∧
        row[4]? = some (some (Int64GetDatum s.stime)) ∧
        row[5]? = some (some (Int64GetDatum (s.rss - s.share)))) ∧
      (∀ g : Int → Option polar_proc_stat,
        (polar_stat_process { world_no_sample with polar_get_proc_stat := g }).length =
          (polar_stat_process world_no_sample).length ∧
        ∃ row2, (polar_stat_process { world_no_sample with polar_get_proc_stat := g })[0]?
            = some row2 ∧
          ∀ j, j ≠ 3 → j ≠ 4 → j ≠ 5 → row2[j]? = row[j]?) :=
  ⟨⟨by decide, rfl⟩, summary_row_sampling world_no_sample 0 sample_entry (by decide) rfl⟩

/-- C9: the rows of `polar_stat_process` follow the registry's enumeration: for
every `i` in `1..num_backends` the `i`-th row is the row the loop stores for
registry slot `i`; it is the all-null row of 20 columns when the registry has no
entry for slot `i`, and otherwise its pid column is the entry's pid and its
query-id column (index 19) the entry's query id. -/
theorem polar_stat_process_order (w : World) (i : Nat) (h1 : 1 ≤ i)
    (h2 : i ≤ w.pgstat_fetch_stat_numbackends) :
    ∃ row, (polar_stat_process w)[i - 1]? = some row ∧
      polar_stat_process_body w [] i = [row] ∧
      (w.pgstat_fetch_stat_local_beentry i = none → row = List.replicate 20 none) ∧
      (∀ e, w.pgstat_fetch_stat_local_beentry i = some e →
        row[0]? = some (some (Int32GetDatum e.backendStatus.st_procpid)) ∧
        row[19]? = some (some (UInt64GetDatum e.backendStatus.st_query_id))) := by
  refine ⟨summary_row w i, ?_, ?_, ?_, ?_⟩
  · have h := polar_stat_process_getElem? w (i - 1) (by omega)
    rwa [Nat.sub_add_cancel h1] at h
  · simp [polar_stat_process_body_eq]
  · intro hE
    simp [summary_row, hE]
  · intro e hE
    rw [summary_row_entry w i e hE]
    cases hS : w.polar_get_proc_stat e.backendStatus.st_procpid <;>
    cases hT : w.PolarIOStatArray <;>
    simp [summary_cpu, summary_io, replicate_twelve]

/-- The witness of C9: the first row of the sample world. -/
theorem polar_stat_process_order_witness :
    (1 ≤ 1 ∧ 1 ≤ world_available.pgstat_fetch_stat_numbackends) ∧
    ∃ row, (polar_stat_process world_available)[1 - 1]? = some row ∧
      polar_stat_process_body world_available [] 1 = [row] ∧
      (world_available.pgstat_fetch_stat_local_beentry 1 = none →
        row = List.replicate 20 none) ∧
      (∀ e, world_available.pgstat_fetch_stat_local_beentry 1 = some e →
        row[0]? = some (some (Int32GetDatum e.backendStatus.st_procpid)) ∧
        row[19]? = some (some (UInt64GetDatum e.backendStatus.st_query_id))) :=
  ⟨⟨by decide, by decide⟩, polar_stat_process_order world_available 1 (by decide) (by decide)⟩

/-- C10 as stated fails at slot 0: in the sample table slot 0 holds pid 1234, and
the first row of `polar_stat_io_info`, the "WAL"/"pfs" row of slot 0, has pid
column 0. -/
theorem io_detail_slot_zero_pid :
    (sample_table 1234 0).pid = 1234 ∧
    ∃ rows, polar_stat_io_info world_available = Except.ok rows ∧
      rows[0]? = some (io_detail_row 0 "WAL" "pfs"
        ((sample_table 1234 0).polar_proc_io_stat_dist 0 POLARIO_SHARED)) ∧
      (io_detail_row 0 "WAL" "pfs"
        ((sample_table 1234 0).polar_proc_io_stat_dist 0 POLARIO_SHARED))[0]? =
          some (some (Int32GetDatum 0)) :=
  ⟨rfl, _, rfl, rfl, rfl⟩

/-- C10, amended: with a stat table in place, `polar_stat_io_info` returns, for
the slots `0 .. PolarNumProcIOStatSlots - 1` in order, the 22 rows of every slot
that is slot 0 or has a pid above 0, and nothing for the others. The 22 rows of a
slot are, for each directory category in the order of `polar_dir_type_names`, the
"pfs" row and then the "local" row; the row of (category, location) carries the
reported pid (0 for slot 0, the slot's pid otherwise), the category name, the
location name and the 17 fields of the slot's cell for that category and
location: counts and byte totals as they are, times as whole microseconds. -/
theorem polar_stat_io_info_rows (w : World) (arr : Int → PolarCollectIoStat)
    (hT : w.PolarIOStatArray = some arr) :
    polar_stat_io_info w =
      Except.ok ((List.range w.PolarNumProcIOStatSlots).flatMap (fun b =>
        if b = 0 ∨ 0 < (arr b).pid then
          io_detail_slot (if b = 0 then 0 else (arr b).pid) (arr b).polar_proc_io_stat_dist
        else [])) ∧
    ∀ (cur_pid : Int) (dist : Nat → Nat → PolarProcIOStat),
      (io_detail_slot cur_pid dist).length = 22 ∧
      ∀ (index : Nat) (name : String), polar_dir_type_names[index]? = some name →
        (io_detail_slot cur_pid dist)[2 * index]? =
          some (io_detail_row cur_pid name "pfs" (dist index POLARIO_SHARED)) ∧
        (io_detail_slot cur_pid dist)[2 * index + 1]? =
          some (io_detail_row cur_pid name "local" (dist index POLARIO_LOCAL)) := by
  refine ⟨polar_stat_io_info_eq w arr hT, ?_⟩
  intro cur_pid dist
  refine ⟨rfl, ?_⟩
  intro index name hname
  have hlt : index < 11 := by
    have := (List.getElem?_eq_some_iff.mp hname).1
    simpa [polar_dir_type_names] using this
  refine ⟨?_, ?_⟩
  · interval_cases index <;> simp [polar_dir_type_names] at hname <;> subst hname <;> rfl
  · interval_cases index <;> simp [polar_dir_type_names] at hname <;> subst hname <;> rfl

/-- The witness of the amended C10: the sample world. -/
theorem polar_stat_io_info_rows_witness :
    world_available.PolarIOStatArray = some (sample_table 1234) ∧
    polar_stat_io_info world_available =
      Except.ok ((List.range world_available.PolarNumProcIOStatSlots).flatMap (fun b =>
        if b = 0 ∨ 0 < (sample_table 1234 b).pid then
          io_detail_slot (if b = 0 then 0 else (sample_table 1234 b).pid)
            (sample_table 1234 b).polar_proc_io_stat_dist
        else [])) ∧
    ∀ (cur_pid : Int) (dist : Nat → Nat → PolarProcIOStat),
      (io_detail_slot cur_pid dist).length = 22 ∧
      ∀ (index : Nat) (name : String), polar_dir_type_names[index]? = some name →
        (io_detail_slot cur_pid dist)[2 * index]? =
          some (io_detail_row cur_pid name "pfs" (dist index POLARIO_SHARED)) ∧
        (io_detail_slot cur_pid dist)[2 * index + 1]? =
          some (io_detail_row cur_pid name "local" (dist index POLARIO_LOCAL)) :=
  ⟨rfl, polar_stat_io_info_rows world_available (sample_table 1234) rfl⟩

/-- C12 as stated fails: the registry entry of slot 1 has pid 50 and backend id 1;
slot 1 of the sample table records pid 1234 with 4 shared reads per category, and
slot 1 of the empty table records pid 0. The row of pid 50 has non-null I/O
columns computed from that slot in both cases: a shared read count of 44, and a
shared read count of 0. -/
theorem summary_io_of_other_pid :
    sample_entry.backendStatus.st_procpid = 50 ∧
    sample_entry.backendStatus.backendid = 1 ∧
    world_available.pgstat_fetch_stat_local_beentry 1 = some sample_entry ∧
    (sample_table 1234 1).pid = 1234 ∧
    ((polar_stat_process world_available)[0]?).bind (fun row => row[0]?) =
        some (some (Int32GetDatum 50)) ∧
    ((polar_stat_process world_available)[0]?).bind (fun row => row[6]?) =
        some (some (Int64GetDatum 44)) ∧
    (empty_table 1).pid = 0 ∧
    ((polar_stat_process world_empty_table)[0]?).bind (fun row => row[0]?) =
        some (some (Int32GetDatum 50)) ∧
    ((polar_stat_process world_empty_table)[0]?).bind (fun row => row[6]?) =
        some (some (Int64GetDatum 0)) := by
  decide

/-- C12, amended: with a stat table in place, the row of a registry entry with pid
`p` and backend id `b` has pid column `p` and non-null I/O columns, and the table
enters the row only through the counters of slot `b`: any table with the same
counters in slot `b` gives the same row, whatever pid slot `b` or any other slot
records. -/
theorem summary_io_by_backendid (w : World) (arr : Int → PolarCollectIoStat) (i : Nat)
    (e : LocalPgBackendStatus) (hT : w.PolarIOStatArray = some arr)
    (hi : i < w.pgstat_fetch_stat_numbackends)
    (hE : w.pgstat_fetch_stat_local_beentry (i + 1) = some e) :
    ∃ row, (polar_stat_process w)[i]? = some row ∧
      row[0]? = some (some (Int32GetDatum e.backendStatus.st_procpid)) ∧
      (∀ j, 6 ≤ j → j ≤ 17 → ∃ d, row[j]? = some (some d)) ∧
      ∀ arr2 : Int → PolarCollectIoStat,
        (arr2 e.backendStatus.backendid).polar_proc_io_stat_dist =
            (arr e.backendStatus.backendid).polar_proc_io_stat_dist →
        (polar_stat_process { w with PolarIOStatArray := some arr2 })[i]? = some row := by
  refine ⟨summary_row w (i + 1), polar_stat_process_getElem? w i hi, ?_, ?_, ?_⟩
  · rw [summary_row_entry w _ e hE]
    simp
  · intro j h6 h17
    rw [summary_row_entry w _ e hE, hT]
    cases hS : w.polar_get_proc_stat e.backendStatus.st_procpid <;>
    simp only [summary_cpu, summary_io, List.cons_append, List.nil_append] <;>
    interval_cases j <;> exact ⟨_, rfl⟩
  · intro arr2 h
    rw [polar_stat_process_getElem? { w with PolarIOStatArray := some arr2 } i hi,
      summary_row_entry w _ e hE,
      summary_row_entry { w with PolarIOStatArray := some arr2 } _ e hE, hT]
    simp only [summary_io, h]
    rfl

/-- The witness of the amended C12: the first row of the sample world. -/
theorem summary_io_by_backendid_witness :
    (world_available.PolarIOStatArray = some (sample_table 1234) ∧
      0 < world_available.pgstat_fetch_stat_numbackends ∧
      world_available.pgstat_fetch_stat_local_beentry (0 + 1) = some sample_entry) ∧
    ∃ row, (polar_stat_process world_available)[0]? = some row ∧
      row[0]? = some (some (Int32GetDatum sample_entry.backendStatus.st_procpid)) ∧
      (∀ j, 6 ≤ j → j ≤ 17 → ∃ d, row[j]? = some (some d)) ∧
      ∀ arr2 : Int → PolarCollectIoStat,
        (arr2 sample_entry.backendStatus.backendid).polar_proc_io_stat_dist =
            (sample_table 1234 sample_entry.backendStatus.backendid).polar_proc_io_stat_dist →
        (polar_stat_process { world_available with PolarIOStatArray := some arr2 })[0]?
          = some row :=
  ⟨⟨rfl, by decide, rfl⟩,
    summary_io_by_backendid world_available (sample_table 1234) 0 sample_entry rfl
      (by decide) rfl⟩

/-- C13, on a table of two slots: the scan of `polar_io_latency_info` visits the
indices 0, 1 and 2, and index 2 is past the end of the table. With the memory
there reading as a slot of pid 777, `polar_io_latency_info` returns 28 rows, the
14 of slot 0 and 14 with pid column 777, while `polar_stat_io_info`, which scans
0 and 1, returns the 22 rows of slot 0 only. -/
theorem latency_scan_past_table_end :
    world_other_memory.PolarNumProcIOStatSlots = 2 ∧
    polar_io_latency_info_slots world_other_memory = [0, 1, 2] ∧
    (∃ rows, polar_io_latency_info world_other_memory = Except.ok rows ∧
      rows.length = 28 ∧
      rows[14]? = some (latency_row 777 (table_then_other_memory 2).num_latency_dist 0 0) ∧
      (latency_row 777 (table_then_other_memory 2).num_latency_dist 0 0)[0]? =
        some (some (Int32GetDatum 777))) ∧
    (∃ rows, polar_stat_io_info world_other_memory = Except.ok rows ∧
      rows.length = 22 ∧
      ∀ row ∈ rows, row[0]? = some (some (Int32GetDatum 0))) := by
  refine ⟨rfl, rfl, ⟨_, rfl, rfl, rfl, rfl⟩, ⟨_, rfl, rfl, ?_⟩⟩
  decide

end PolarMonitorIO
